import Mathlib

/-!
Verification development for the rav-whatsapp-qa retrieval-and-linking core.

The JavaScript source is shallowly embedded: JS numbers are modelled as real
numbers (`ℝ`), except the feedback running average where exact rationals (`ℚ`)
suffice; JS strings are Lean `String`s, and the text-processing primitives the
code uses (`trim`, `toLowerCase`, `split`, `includes`) are re-implemented over
`List Char` so that they reduce inside the kernel.  Nullable JS values are
`Option`s; JS truthiness of strings (null/undefined/"" are falsy) is modelled
by `truthyStr`.  Database reads/writes and provider calls are made explicit:
functions take the data a query would return as an argument, return the list
of writes they would perform, and count the provider (OpenAI) calls they make.
A provider call that can fail is an `Option`/`Except` argument: `none`/`error`
is the thrown-and-caught failure path of the source.
-/

/-! ## JS string primitives (shared by all modules) -/

/-- The JS truthiness of a nullable string: `null`, `undefined` and `""` are falsy. -/
def truthyStr : Option String → Bool
  | some s => !(s == "")
  | none => false

/-- Source `text.toLowerCase()` on the character list (ASCII case folding). -/
def jsToLower (l : List Char) : List Char := l.map Char.toLower

/-- Left-trim of whitespace. -/
def jsDropWs (l : List Char) : List Char := l.dropWhile Char.isWhitespace

/-- Source `s.trim()`: drop whitespace from both ends. -/
def jsTrimL (l : List Char) : List Char := ((jsDropWs l).reverse.dropWhile Char.isWhitespace).reverse

/-- Source `s.trim()` as a `String` transformer. -/
def jsTrimStr (s : String) : String := String.mk (jsTrimL s.toList)

/-- Source `hay.includes(sub)`: literal substring containment. -/
def containsSub (hay sub : List Char) : Bool :=
  hay.tails.any (fun t => sub.isPrefixOf t)

/-- Splitting on runs of separator characters (the behaviour of
`split(/sep+/)` up to empty tokens, which every caller filters away by a
minimum-length condition): returns the maximal runs of non-separator chars. -/
def splitRuns (sep : Char → Bool) : List Char → List Char → List (List Char)
  | [], acc => if acc.isEmpty then [] else [acc.reverse]
  | c :: rest, acc =>
    if sep c then
      if acc.isEmpty then splitRuns sep rest []
      else acc.reverse :: splitRuns sep rest []
    else splitRuns sep rest (c :: acc)

/-- Source `text.split(/sep+/)` keeping non-empty tokens only. -/
def splitOnPred (sep : Char → Bool) (l : List Char) : List (List Char) := splitRuns sep l []

/-- Source `replace(/\s+/g, ' ')`: collapse each whitespace run to a single space.
The boolean argument records whether the previously emitted char was a space
of a collapsed run. -/
def collapseWsAux : Bool → List Char → List Char
  | _, [] => []
  | prevWs, c :: rest =>
    if c.isWhitespace then
      if prevWs then collapseWsAux true rest
      else ' ' :: collapseWsAux true rest
    else c :: collapseWsAux false rest

namespace EnhancedMatcher

/-! ## src/enhanced_matcher.js -/

/-- Candidate window of 72 hours, in seconds. -/
def WINDOW_SEC : ℤ := 72 * 3600
/-- Same-author bonus. -/
def SAME_AUTHOR_BONUS : ℝ := 0.15
/-- Confidence assigned to an explicit reply link. -/
def REPLY_HARDLINK : ℝ := 1.0
/-- Linear time-decay per hour. -/
def TIME_DECAY_PER_H : ℝ := 0.015
/-- Language-match bonus. -/
def LANG_BONUS_MATCH : ℝ := 0.08
/-- Weight of the semantic similarity term. -/
def SIM_WEIGHT : ℝ := 0.8
/-- Weight of the conversational-context term. -/
def CONTEXT_WEIGHT : ℝ := 0.2
/-- Acceptance threshold for the final score. -/
def THRESHOLD_ACCEPT : ℝ := 0.55
/-- AI verification flag (`true` in the source). -/
def VERIFY_WITH_GPT : Bool := true

/-- Source `detectLanguage`: Hebrew if any char in U+0590..U+05FF, Arabic if any in
U+0600..U+06FF, French otherwise; null/empty text defaults to French. -/
def detectLanguage (text : String) : String :=
  if text = "" then "fr"
  else if text.toList.any (fun c => decide (0x590 ≤ c.toNat) && decide (c.toNat ≤ 0x5FF)) then "he"
  else if text.toList.any (fun c => decide (0x600 ≤ c.toNat) && decide (c.toNat ≤ 0x6FF)) then "ar"
  else "fr"

/-- Source `cosineSimilarity` of enhanced_matcher.js: guarded — returns 0 on length
mismatch (the `!a || !b || a.length !== b.length` check; Lean lists are never
null) and returns 0 when either accumulated norm is zero. -/
noncomputable def cosineSimilarity (a b : List ℝ) : ℝ :=
  if a.length ≠ b.length then 0
  else
    let dotProduct := (List.zipWith (fun x y => x * y) a b).sum
    let normA := (a.map (fun x => x * x)).sum
    let normB := (b.map (fun x => x * x)).sum
    if normA = 0 ∨ normB = 0 then 0
    else dotProduct / (Real.sqrt normA * Real.sqrt normB)

/-- A JS word character for `\W+` splitting: `[A-Za-z0-9_]`. -/
def isWordChar (c : Char) : Bool := c.isAlphanum || c == '_'

/-- The word set of `textSimilarity`:
`text.toLowerCase().split(/\W+/).filter(w => w.length > 2)` as a set. -/
def wordSet (t : String) : Finset (List Char) :=
  ((splitOnPred (fun c => !isWordChar c) (jsToLower t.toList)).filter
    (fun w => 2 < w.length)).toFinset

/-- Source `textSimilarity`: Jaccard overlap of the two word sets; 0 if either input
is falsy or the union is empty. -/
noncomputable def textSimilarity (t1 t2 : String) : ℝ :=
  if t1 = "" ∨ t2 = "" then 0
  else
    let words1 := wordSet t1
    let words2 := wordSet t2
    let intersection := words1 ∩ words2
    let union := words1 ∪ words2
    if 0 < union.card then (intersection.card : ℝ) / (union.card : ℝ) else 0

/-- The halakhic keyword list of `analyzeContext`. -/
def halakhicKeywords : List String :=
  ["chabbat", "cacher", "trefa", "halavi", "bassari", "parve", "mélange",
   "attente", "lavage", "bénédiction", "prière", "téfilin", "talith",
   "nidda", "mikvé", "conversion", "guer", "mamzer", "agouna"]

/-- Source `analyzeContext`: +0.1 per keyword that occurs in both texts, +0.05 for a
short question with a long answer, −0.1 for a time gap over 24h, the total
capped at 0.3. -/
noncomputable def analyzeContext (question answer : String) (timeGap : ℝ) : ℝ :=
  let qWords := jsToLower question.toList
  let aWords := jsToLower answer.toList
  let keywordScore : ℝ :=
    0.1 * ((halakhicKeywords.filter
      (fun kw => containsSub qWords kw.toList && containsSub aWords kw.toList)).length : ℝ)
  let withShort := if question.length < 100 ∧ 50 < answer.length then keywordScore + 0.05
    else keywordScore
  let withGap := if 24 < timeGap then withShort - 0.1 else withShort
  min 0.3 withGap

/-- The fields of the JSON object the verifier model is asked to produce; a
field the model omitted is `none`. -/
structure VerifyRaw where
  score : Option ℝ
  reasoning : Option String
  confidence : Option String

/-- The record `verifyWithAI` resolves with. -/
structure VerifyResult where
  score : ℝ
  reasoning : String
  confidence : String

/-- Source `verifyWithAI`: `none` is the failure path (provider unreachable, API
error, or `JSON.parse` throwing on the model output) — all of these are
caught inside the function, which then resolves with the neutral
`{score: 0.5, reasoning: 'Erreur IA', confidence: 'low'}`.  On success the
score is defaulted through JS `||` (so an explicit 0 becomes 0.5) and clamped
into [0,1]. -/
noncomputable def verifyWithAI (resp : Option VerifyRaw) : VerifyResult :=
  match resp with
  | none => { score := 0.5, reasoning := "Erreur IA", confidence := "low" }
  | some r =>
    let rawScore : ℝ := match r.score with
      | some s => if s = 0 then 0.5 else s
      | none => 0.5
    { score := max 0 (min 1 rawScore),
      reasoning := r.reasoning.getD "",
      confidence := r.confidence.getD "medium" }

/-- A row of the candidate query in `enhancedMatchAnswerToQuestion`
(embeddings already JSON-parsed; an absent or unparseable `q_embed` is
`none`). -/
structure Candidate where
  id : ℕ
  wa_message_id : String
  question_text : String
  ts : ℤ
  sender_name : Option String
  sender_jid : Option String
  q_embed : Option (List ℝ)
  a_embed : Option (List ℝ)

/-- The database writes the matcher performs. -/
inductive DbWrite
  | setAEmbed (waId : String) (emb : List ℝ)
  | setQEmbed (id : ℕ) (emb : List ℝ)
  | setLink (waId : String) (qid : Option String) (confidence : ℝ) (method : String)

/-- The named arguments of `enhancedMatchAnswerToQuestion`. -/
structure MatchInput where
  groupName : String
  audioWAId : String
  answerText : String
  answerSender : Option String
  answerTsSec : ℤ
  repliedToMessageId : Option String
  questionTextHint : Option String

/-- The external-provider responses for one run: the answer embedding, the
per-question embeddings (`none` = the call failed), and the verifier response
(`none` = the verifier call failed or its output did not parse). -/
structure Oracles where
  answerEmbed : Option (List ℝ)
  questionEmbed : String → Option (List ℝ)
  verifyResp : Option VerifyRaw

/-- The embedding actually used for a candidate question: the cached
`q_embed` when present, otherwise the result of the `getEmbedding` call on the
trimmed question text. -/
noncomputable def effectiveQEmbed (questionEmbed : String → Option (List ℝ))
    (c : Candidate) : Option (List ℝ) :=
  match c.q_embed with
  | some e => some e
  | none => questionEmbed (jsTrimStr c.question_text)

/-- The per-candidate `finalScore` computed inline in the scoring loop:
semantic, textual and contextual terms, author/language bonuses and linear
time decay, plus the optional hint-similarity term. -/
noncomputable def candidateFinalScore (answerText : String) (answerSender : Option String)
    (answerTsSec : ℤ) (questionTextHint : Option String)
    (answerEmbedding questionEmbedding : Option (List ℝ)) (c : Candidate) : ℝ :=
  let question := jsTrimStr c.question_text
  let semanticScore : ℝ :=
    match answerEmbedding, questionEmbedding with
    | some ae, some qe => cosineSimilarity ae qe
    | _, _ => 0
  let textScore := textSimilarity question answerText
  let sameAuthor := truthyStr c.sender_name && truthyStr answerSender &&
    (c.sender_name.getD "" == answerSender.getD "")
  let timeGap : ℝ := ((answerTsSec - c.ts : ℤ) : ℝ) / 3600
  let questionLang := detectLanguage question
  let answerLang := detectLanguage answerText
  let contextScore := analyzeContext question answerText timeGap
  let base :=
    SIM_WEIGHT * semanticScore + 0.3 * textScore + CONTEXT_WEIGHT * contextScore +
    (if sameAuthor then SAME_AUTHOR_BONUS else 0) +
    (if questionLang == answerLang then LANG_BONUS_MATCH else 0) -
    TIME_DECAY_PER_H * min 48 timeGap
  match questionTextHint with
  | some hint => if 0 < hint.length then base + textSimilarity hint question * 0.1 else base
  | none => base

/-- The mutable state of the candidate loop: current best match and score,
provider call count and accumulated writes. -/
structure ScanState where
  best : Option Candidate
  bestScore : ℝ
  calls : ℕ
  writes : List DbWrite

/-- The score the loop assigns to a candidate (its `finalScore` before the
verification blend), with the effective question embedding resolved. -/
noncomputable def scanScore (answerText : String) (answerSender : Option String)
    (answerTsSec : ℤ) (questionTextHint : Option String)
    (answerEmbedding : Option (List ℝ)) (questionEmbed : String → Option (List ℝ))
    (c : Candidate) : ℝ :=
  candidateFinalScore answerText answerSender answerTsSec questionTextHint
    answerEmbedding (effectiveQEmbed questionEmbed c) c

/-- One iteration of the candidate scoring loop: skip a blank question,
otherwise fetch (and cache) a missing question embedding — one provider call
whether or not it succeeds — and record the candidate as the new best only
when its score is strictly greater than the current one. -/
noncomputable def scanStep (answerText : String) (answerSender : Option String)
    (answerTsSec : ℤ) (questionTextHint : Option String)
    (answerEmbedding : Option (List ℝ)) (questionEmbed : String → Option (List ℝ))
    (c : Candidate) (st : ScanState) : ScanState :=
  let question := jsTrimStr c.question_text
  if question = "" then st
  else
    let bookkeeping : ℕ × List DbWrite :=
      match c.q_embed with
      | some _ => (st.calls, st.writes)
      | none =>
        match questionEmbed question with
        | some e => (st.calls + 1, st.writes ++ [DbWrite.setQEmbed c.id e])
        | none => (st.calls + 1, st.writes)
    let s := scanScore answerText answerSender answerTsSec questionTextHint
      answerEmbedding questionEmbed c
    if st.bestScore < s then
      { best := some c, bestScore := s, calls := bookkeeping.1, writes := bookkeeping.2 }
    else
      { st with calls := bookkeeping.1, writes := bookkeeping.2 }

/-- The candidate scoring loop of `enhancedMatchAnswerToQuestion`: fold
`scanStep` over the candidate list. -/
noncomputable def scanCandidates (answerText : String) (answerSender : Option String)
    (answerTsSec : ℤ) (questionTextHint : Option String)
    (answerEmbedding : Option (List ℝ)) (questionEmbed : String → Option (List ℝ)) :
    List Candidate → ScanState → ScanState
  | [], st => st
  | c :: rest, st =>
    scanCandidates answerText answerSender answerTsSec questionTextHint
      answerEmbedding questionEmbed rest
      (scanStep answerText answerSender answerTsSec questionTextHint
        answerEmbedding questionEmbed c st)

/-- The state after the whole scoring phase of a non-reply run: the answer
embedding call (one provider call, a cache write when it succeeds) followed by
the candidate loop. -/
noncomputable def scanState (inp : MatchInput) (candidates : List Candidate)
    (orc : Oracles) : ScanState :=
  let embedWrites : List DbWrite :=
    match orc.answerEmbed with
    | some e => [DbWrite.setAEmbed inp.audioWAId e]
    | none => []
  scanCandidates inp.answerText inp.answerSender inp.answerTsSec inp.questionTextHint
    orc.answerEmbed orc.questionEmbed candidates
    { best := none, bestScore := 0, calls := 1, writes := embedWrites }

/-- The final (possibly blended) score of steps 5–6: the verifier blend
`0.7 · algorithmic + 0.3 · verifier` applies exactly when the algorithmic
best exceeds 0.3 (`VERIFY_WITH_GPT` being true). -/
noncomputable def blendedScore (inp : MatchInput) (candidates : List Candidate)
    (orc : Oracles) : ℝ :=
  if 0.3 < (scanState inp candidates orc).bestScore then
    0.7 * (scanState inp candidates orc).bestScore +
      0.3 * (verifyWithAI orc.verifyResp).score
  else (scanState inp candidates orc).bestScore

/-- The value `enhancedMatchAnswerToQuestion` resolves with, together with the
writes it performed and the number of provider calls it made. -/
structure MatchResult where
  qid : Option String
  confidence : ℝ
  method : String
  writes : List DbWrite
  providerCalls : ℕ

/-- Source `enhancedMatchAnswerToQuestion`: reply hard-link, else candidate scoring,
optional AI verification blend (70% algorithm + 30% verifier when the
algorithmic best exceeds 0.3), and the 0.55 acceptance decision. -/
noncomputable def enhancedMatchAnswerToQuestion (inp : MatchInput)
    (candidates : List Candidate) (orc : Oracles) : MatchResult :=
  if truthyStr inp.repliedToMessageId then
    { qid := inp.repliedToMessageId, confidence := REPLY_HARDLINK, method := "reply",
      writes := [DbWrite.setLink inp.audioWAId inp.repliedToMessageId REPLY_HARDLINK "reply"],
      providerCalls := 0 }
  else if candidates.length = 0 then
    { qid := none, confidence := 0, method := "no-candidates", writes := [], providerCalls := 0 }
  else
    let stf := scanState inp candidates orc
    match stf.best with
    | none =>
      { qid := none, confidence := 0, method := "no-valid-match",
        writes := stf.writes, providerCalls := stf.calls }
    | some bc =>
      let aiVerification : Option VerifyResult :=
        if VERIFY_WITH_GPT && decide (0.3 < stf.bestScore) then some (verifyWithAI orc.verifyResp)
        else none
      let finalScore : ℝ :=
        match aiVerification with
        | some ai => 0.7 * stf.bestScore + 0.3 * ai.score
        | none => stf.bestScore
      let calls := stf.calls + (if aiVerification.isSome then 1 else 0)
      if finalScore < THRESHOLD_ACCEPT then
        { qid := none, confidence := finalScore, method := "low-score",
          writes := stf.writes ++ [DbWrite.setLink inp.audioWAId none finalScore "low-score"],
          providerCalls := calls }
      else
        let method := if aiVerification.isSome then "ai-enhanced" else "algorithm"
        { qid := some bc.wa_message_id, confidence := finalScore, method := method,
          writes := stf.writes ++
            [DbWrite.setLink inp.audioWAId (some bc.wa_message_id) finalScore method],
          providerCalls := calls }

end EnhancedMatcher

namespace Guardrails

/-! ## src/guardrails.js -/

/-- The halakhic keyword vocabulary used for domain classification and the
thematic sub-score. -/
def HALAKHIC_KEYWORDS : List String :=
  ["shabbat", "chabbat", "shabbos", "yom tov", "pessah", "pâque", "souccot", "pourim",
   "hanoucca", "hanoukka", "rosh hashana", "yom kippour", "chavouot", "tichri",
   "casher", "kasher", "cachère", "treif", "halavi", "bassar", "parve", "viande", "lait",
   "kashrout", "cacherout", "évier", "ustensile", "four", "plaque",
   "tefila", "prière", "chema", "shema", "amida", "birkat", "berakha", "bénédiction",
   "minyan", "kaddish", "hallel", "minha", "arvit", "shaharit",
   "nida", "mikvé", "mikve", "mariage", "kiddouchin", "ketuba", "guett", "divorce",
   "deuil", "avelout", "shiva", "kria", "naissance", "brit mila", "circoncision",
   "torah", "talmud", "halakha", "halacha", "mitsvot", "mitsva", "interdit", "permis",
   "rav", "rabbin", "choulhan", "aruch", "rambam", "choul'han aroukh",
   "bénir", "laver", "manger", "cuire", "allumer", "bougie", "lumière", "travail",
   "netilat", "hamotsi", "mezouza", "tefiline", "tsitsit", "kippa"]

/-- The record `filterQuery` returns. -/
structure QueryValidation where
  valid : Bool
  cleaned : String
  confidence : ℝ
  reason : Option String
  isHalakhic : Bool

/-- The query normalization of `filterQuery`:
`(query || '').trim().replace(/\s+/g, ' ').toLowerCase()`. -/
def cleanQuery (q : String) : String :=
  String.mk (jsToLower (collapseWsAux false (jsTrimL q.toList)))

/-- Source `filterQuery`.  The battery of spam/injection regexes, which is tested
against the raw query, is modelled as an arbitrary predicate `spamTest`: every
theorem below holds for every such predicate. -/
noncomputable def filterQuery (spamTest : String → Bool) (query : String) : QueryValidation :=
  let cleaned := cleanQuery query
  if cleaned.length < 5 then
    { valid := false, cleaned := "", confidence := 0,
      reason := some "Question trop courte (minimum 5 caractères)", isHalakhic := false }
  else if spamTest query then
    { valid := false, cleaned := "", confidence := 0,
      reason := some "Requête détectée comme spam ou invalide", isHalakhic := false }
  else
    let isHal := HALAKHIC_KEYWORDS.any
      (fun kw => containsSub cleaned.toList (jsToLower kw.toList))
    if isHal then
      { valid := true, cleaned := cleaned, confidence := 1.0, reason := none, isHalakhic := true }
    else
      { valid := true, cleaned := cleaned, confidence := 0.5,
        reason := some "Question peut-être hors-sujet halakhique", isHalakhic := false }

/-- The confidence-model weights. -/
def WEIGHTS_vectorScore : ℝ := 0.40
/-- Thematic weight. -/
def WEIGHTS_thematicScore : ℝ := 0.25
/-- Quality weight. -/
def WEIGHTS_qualityScore : ℝ := 0.20
/-- Recency weight. -/
def WEIGHTS_recencyScore : ℝ := 0.15

/-- A row of the list `searchLocal` resolves with, as consumed by the
guardrails (`answer`/`question` already defaulted to `''` by the producer;
`audio_path` and `timestamp` may be absent). -/
structure SearchResult where
  id : ℕ
  score : ℝ
  feedback_score : ℝ
  question : String
  answer : String
  audio_path : Option String
  group_name : String
  timestamp : Option ℝ

/-- The four sub-scores of `calculateConfidence`. -/
structure ConfidenceDetails where
  vector : ℝ
  thematic : ℝ
  quality : ℝ
  recency : ℝ

/-- The record `calculateConfidence` returns. -/
structure Confidence where
  score : ℝ
  level : String
  emoji : String
  details : ConfidenceDetails

/-- Source `calculateConfidence`: the four-factor weighted confidence model.
`Date.now() / 1000` is passed as the parameter `now`; the final
`parseFloat(score.toFixed(3))` is three-decimal rounding. -/
noncomputable def calculateConfidence (now : ℝ) (result : SearchResult) (query : String) :
    Confidence :=
  let vector := result.score
  let queryLower := jsToLower query.toList
  let answerLower := jsToLower result.answer.toList
  let matchedKeywords := HALAKHIC_KEYWORDS.filter
    (fun kw => containsSub queryLower kw.toList && containsSub answerLower kw.toList)
  let thematic := min ((matchedKeywords.length : ℝ) * 0.2) 1.0
  let answerLength := result.answer.length
  let qualityBase : ℝ :=
    if 500 < answerLength then 1.0
    else if 200 < answerLength then 0.8
    else if 100 < answerLength then 0.6
    else if 50 < answerLength then 0.4
    else 0.2
  let quality := if truthyStr result.audio_path then min (qualityBase + 0.1) 1.0 else qualityBase
  let recency : ℝ :=
    match result.timestamp with
    | some t =>
      if t = 0 then 0.5
      else
        let ageSeconds := now - t
        let ageYears := ageSeconds / (365 * 24 * 3600)
        max 0 (1 - ageYears * 0.1)
    | none => 0.5
  let finalScore :=
    WEIGHTS_vectorScore * vector + WEIGHTS_thematicScore * thematic +
    WEIGHTS_qualityScore * quality + WEIGHTS_recencyScore * recency
  let level := if 0.65 < finalScore then "high" else if 0.45 < finalScore then "medium" else "low"
  let emoji := if 0.65 < finalScore then "🟢" else if 0.45 < finalScore then "🟡" else "🔴"
  { score := ((round (finalScore * 1000) : ℤ) : ℝ) / 1000, level := level, emoji := emoji,
    details := { vector := vector, thematic := thematic, quality := quality, recency := recency } }

/-- Minimum response length before the audio fallback applies. -/
def MIN_RESPONSE_LENGTH : ℕ := 30
/-- Minimum vector score a result must reach. -/
def MIN_VECTOR_SCORE : ℝ := 0.35

/-- The record `filterResponse` returns (its `confidence` field is always
set before returning). -/
structure Validation where
  valid : Bool
  shouldShow : Bool
  warnings : List String
  confidence : Confidence

/-- Source `filterResponse`: per-result exclusion and confidence computation.  A JS
falsy score (`!result.score`, i.e. 0) also fails the vector-score check. -/
noncomputable def filterResponse (now : ℝ) (result : SearchResult) (query : String) :
    Validation :=
  let scoreBad := result.score = 0 ∨ result.score < MIN_VECTOR_SCORE
  let valid := if scoreBad then false else true
  let shouldShow0 := if scoreBad then false else true
  let warnings0 : List String := if scoreBad then ["Score trop bas"] else []
  let answerLength := result.answer.length
  let shouldShow := if answerLength < MIN_RESPONSE_LENGTH then
      (if truthyStr result.audio_path then shouldShow0 else false)
    else shouldShow0
  let warnings1 := if answerLength < MIN_RESPONSE_LENGTH then
      warnings0 ++ ["Réponse courte, vérifiez l'audio"]
    else warnings0
  let confidence := calculateConfidence now result query
  let warnings2 := if confidence.level = "low" then
      warnings1 ++ ["Confiance basse - à valider par un utilisateur"]
    else warnings1
  { valid := valid, shouldShow := shouldShow, warnings := warnings2, confidence := confidence }

/-- The three rejection messages. -/
structure RejectionMessages where
  noResults : String
  lowConfidence : String
  offTopic : String

/-- Source `REJECTION_MESSAGE`. -/
def REJECTION_MESSAGE : RejectionMessages :=
  { noResults := "Je n'ai pas trouvé de réponse fiable à votre question dans les enseignements du Rav. Veuillez reformuler votre question ou consulter directement un rabbin.",
    lowConfidence := "J'ai trouvé une réponse possible, mais ma confiance est limitée. Voici ce que j'ai trouvé, mais je vous recommande de vérifier auprès d'un rabbin.",
    offTopic := "Votre question ne semble pas concerner un sujet halakhique. Ce système est dédié aux questions de Halakha (loi juive). Veuillez reformuler." }

/-- The record `shouldReject` returns. -/
structure Rejection where
  reject : Bool
  warn : Bool
  message : Option String

/-- Source `shouldReject`: whole-query rejection — no results, off-topic query
(non-halakhic with confidence strictly below 0.5), all scores below the
vector minimum — and the low-confidence warning. -/
noncomputable def shouldReject (results : List SearchResult)
    (queryFilter : QueryValidation) : Rejection :=
  match results with
  | [] => { reject := true, warn := false, message := some REJECTION_MESSAGE.noResults }
  | r :: rs =>
    if queryFilter.isHalakhic = false ∧ queryFilter.confidence < 0.5 then
      { reject := true, warn := false, message := some REJECTION_MESSAGE.offTopic }
    else
      let bestScore := (rs.map (fun x => x.score)).foldl max r.score
      if bestScore < MIN_VECTOR_SCORE then
        { reject := true, warn := false, message := some REJECTION_MESSAGE.noResults }
      else if bestScore < 0.5 then
        { reject := false, warn := true, message := some REJECTION_MESSAGE.lowConfidence }
      else
        { reject := false, warn := false, message := none }

/-- A search result together with its validation, as built by
`applyGuardrails` step 3. -/
structure ValidatedResult where
  result : SearchResult
  validation : Validation
  confidence : Confidence

/-- The statistics block of a successful `applyGuardrails` run. -/
structure GuardStats where
  total : ℕ
  validated : ℕ
  rejected : ℕ

/-- The record `applyGuardrails` resolves with. -/
structure GuardResult where
  success : Bool
  results : List ValidatedResult
  message : Option String
  warning : Option String
  stats : Option GuardStats

/-- Source `applyGuardrails`: input filter, whole-query rejection, then per-result
validation, filtering by `shouldShow` and sorting by descending confidence
score. -/
noncomputable def applyGuardrails (spamTest : String → Bool) (now : ℝ) (query : String)
    (searchResults : List SearchResult) : GuardResult :=
  let queryValidation := filterQuery spamTest query
  if queryValidation.valid = false then
    { success := false, results := [], message := queryValidation.reason,
      warning := none, stats := none }
  else
    let rejection := shouldReject searchResults queryValidation
    if rejection.reject then
      { success := false, results := [], message := rejection.message,
        warning := none, stats := none }
    else
      let validatedResults :=
        ((searchResults.map (fun r =>
            let v := filterResponse now r query
            ({ result := r, validation := v, confidence := v.confidence } : ValidatedResult)))
          |>.filter (fun v => v.validation.shouldShow)
          |>.mergeSort (fun a b => decide (b.confidence.score ≤ a.confidence.score)))
      { success := true, results := validatedResults, message := none,
        warning := if rejection.warn then rejection.message else none,
        stats := some { total := searchResults.length, validated := validatedResults.length,
                        rejected := searchResults.length - validatedResults.length } }

end Guardrails

namespace RagApi

/-! ## src/rag_api.js -/

/-- A row of the cache-rebuild join in `loadVectors` (the `vector` column is
already JSON-parsed; `feedback_score` is the COALESCEd net vote count). -/
structure Row where
  id : ℕ
  vector : List ℝ
  question_text : Option String
  transcript_torah : Option String
  transcript_raw : Option String
  audio_path : Option String
  ts : Option ℝ
  group_name : Option String
  relevance_score : Option ℝ
  feedback_score : ℤ

/-- JS `a || b` on nullable strings (null/undefined/'' are falsy). -/
def truthyOr (a b : Option String) : Option String := if truthyStr a then a else b

/-- A cached vector entry (the `payload` object is flattened into fields). -/
structure Vec where
  id : ℕ
  vector : List ℝ
  question : Option String
  answer : Option String
  audio_path : Option String
  timestamp : Option ℝ
  group_name : Option String
  feedback_score : ℤ
  relevance_score : ℝ

/-- Source `loadVectors`: maps the store rows into the in-memory cache; when the read
throws (`Except.error`), the catch block sets the cache to the empty list.
The TTL-based memoization is timing behaviour and is not modelled: this is
the rebuild path. -/
noncomputable def loadVectors (store : Except Unit (List Row)) : List Vec :=
  match store with
  | Except.error _ => []
  | Except.ok rows => rows.map (fun r =>
      { id := r.id, vector := r.vector, question := r.question_text,
        answer := truthyOr r.transcript_torah r.transcript_raw,
        audio_path := r.audio_path, timestamp := r.ts, group_name := r.group_name,
        feedback_score := r.feedback_score,
        relevance_score := match r.relevance_score with
          | some s => if s = 0 then 0.5 else s
          | none => 0.5 })

/-- Source `cosineSimilarity` of rag_api.js: UNguarded.  The loop runs over the
indices of `a`, so only the first `a.length` entries of `b` enter the sums,
and an out-of-range access poisons the sums with NaN; when the denominator is
zero the JS division `0 / 0` yields NaN.  A NaN result is modelled as `none`. -/
noncomputable def cosineSimilarity (a b : List ℝ) : Option ℝ :=
  if b.length < a.length then none
  else
    let b' := b.take a.length
    let dot := (List.zipWith (fun x y => x * y) a b').sum
    let normA := (a.map (fun x => x * x)).sum
    let normB := (b'.map (fun x => x * x)).sum
    if normA = 0 ∨ normB = 0 then none
    else some (dot / (Real.sqrt normA * Real.sqrt normB))

/-- The per-vector score of `searchLocal`: cosine times one plus the
vote-count boost `min(max(feedback_score * 0.05, -0.2), 0.2)`.  Modelling
boundary: in rag_api.js a NaN cosine propagates NaN into this score and
onward into the guardrails; here the `getD 0` substitutes the junk value 0
for that NaN, which no theorem relies on — the only theorem about this
function (C9) runs it on an empty cache, where no score is ever computed. -/
noncomputable def localScore (qv : List ℝ) (v : Vec) : ℝ :=
  let cosine := (cosineSimilarity qv v.vector).getD 0
  let boost := min (max ((v.feedback_score : ℝ) * 0.05) (-0.2)) 0.2
  cosine * (1 + boost)

/-- Source `searchLocal` of rag_api.js: embed the query (`none` = the call threw and
the catch block returned `[]`), score every cached vector, sort by descending
score, truncate to `limit` and project to the result records. -/
noncomputable def searchLocal (queryVector : Option (List ℝ))
    (store : Except Unit (List Row)) (limit : ℕ) : List Guardrails.SearchResult :=
  match queryVector with
  | none => []
  | some qv =>
    let vectors := loadVectors store
    let results := vectors.map (fun v => (v, localScore qv v))
    let sorted := results.mergeSort (fun a b => decide (b.2 ≤ a.2))
    (sorted.take limit).map (fun p =>
      { id := p.1.id, score := p.2, feedback_score := p.1.relevance_score,
        question := p.1.question.getD "", answer := p.1.answer.getD "",
        audio_path := p.1.audio_path, group_name := p.1.group_name.getD "",
        timestamp := p.1.timestamp })

/-- One row of the response's `results` array (`audio_url` resolution checks
the media directory on disk and is passed in as `audioUrl`). -/
structure FinalResult where
  id : ℕ
  question : String
  answer : String
  confidence : Option Guardrails.Confidence
  audio_url : Option String

/-- The record `secureRAGSearch` resolves with (the wall-clock `duration`
statistic is not modelled). -/
structure Response where
  success : Bool
  error : Option String
  queryOriginal : String
  queryCleaned : String
  isHalakhic : Bool
  results : List FinalResult
  total_found : ℕ
  validated : ℕ
  rejected : ℕ

/-- Source `secureRAGSearch` of rag_api.js: validate the query, search locally with
`limit * 3` candidates, apply the guardrails, and build the response.  The
answer-embedding provider is `embedOracle` (applied to the cleaned query);
`spamTest` and `now` are as in the guardrails; `includeDetails` selects full
or truncated answers. -/
noncomputable def secureRAGSearch (spamTest : String → Bool) (now : ℝ)
    (audioUrl : Option String → Option String) (query : String)
    (embedOracle : String → Option (List ℝ)) (store : Except Unit (List Row))
    (limit : ℕ) (includeDetails : Bool) : Response :=
  let queryValidation := Guardrails.filterQuery spamTest query
  if queryValidation.valid = false then
    { success := false, error := queryValidation.reason,
      queryOriginal := query, queryCleaned := "", isHalakhic := false,
      results := [], total_found := 0, validated := 0, rejected := 0 }
  else
    let rawResults := searchLocal (embedOracle queryValidation.cleaned) store (limit * 3)
    let guardedResult := Guardrails.applyGuardrails spamTest now query rawResults
    { success := guardedResult.success, error := none,
      queryOriginal := query, queryCleaned := queryValidation.cleaned,
      isHalakhic := queryValidation.isHalakhic,
      results := (guardedResult.results.take limit).map (fun r =>
        { id := r.result.id, question := r.result.question,
          answer := if includeDetails then r.result.answer
            else String.mk (r.result.answer.toList.take 200 ++ "...".toList),
          confidence := some r.confidence, audio_url := audioUrl r.result.audio_path }),
      total_found := rawResults.length,
      validated := (guardedResult.stats.map (fun s => s.validated)).getD 0,
      rejected := (guardedResult.stats.map (fun s => s.rejected)).getD 0 }

end RagApi

namespace Hybrid

/-! ## src/unnamed/part_007 — the hybrid `searchLocal` (relevance boost +
keyword bonus) variant of the RAG search. -/

/-- A cached vector entry of this variant (its `loadVectors` carries
`relevance_score` but no vote count). -/
structure Vec where
  id : ℕ
  vector : List ℝ
  question : Option String
  answer : Option String
  audio_path : Option String
  timestamp : Option ℝ
  group_name : Option String
  relevance_score : ℝ

/-- The hybrid keywords:
`query.toLowerCase().split(/\s+/).filter(w => w.length > 2)`. -/
def keywordsOf (query : String) : List (List Char) :=
  (splitOnPred Char.isWhitespace (jsToLower query.toList)).filter (fun w => 2 < w.length)

/-- The learning boost term: `(v.relevance_score || 0.5) - 0.5) * 0.4`
(a JS-falsy relevance of 0 is defaulted back to 0.5). -/
noncomputable def feedbackBoost (v : Vec) : ℝ :=
  ((if v.relevance_score = 0 then 0.5 else v.relevance_score) - 0.5) * 0.4

/-- The hybrid keyword bonus: +0.05 for each query keyword literally contained
in the candidate's question. -/
noncomputable def keywordBonus (query : String) (v : Vec) : ℝ :=
  0.05 * (((keywordsOf query).filter
    (fun k => containsSub (jsToLower (v.question.getD "").toList) k)).length : ℝ)

/-- The per-vector score of the hybrid `searchLocal`:
`cosSim * relevanceBoost + keywordBonus` with `relevanceBoost = 1 + feedbackBoost`.
A NaN cosine (`none`: zero-norm or length-mismatched vectors) propagates
through the arithmetic, so the score itself is NaN (`none`) then. -/
noncomputable def score (query : String) (qv : List ℝ) (v : Vec) : Option ℝ :=
  (RagApi.cosineSimilarity qv v.vector).map
    (fun cosSim => cosSim * (1 + feedbackBoost v) + keywordBonus query v)

/-- The sort comparator `(a, b) => b.score - a.score`.  When a NaN score is
involved the JS comparator returns NaN and ECMAScript leaves the resulting
order implementation-defined; the model fixes the arbitrary convention of
reading a NaN key as 0.  The ranking theorem below never exercises that
convention: its hypothesis rules NaN scores out, and the merge sort only
ever compares elements of the scored list. -/
noncomputable def sortLe (a b : Vec × Option ℝ) : Bool :=
  decide (b.2.getD 0 ≤ a.2.getD 0)

/-- One row of the list the hybrid `searchLocal` resolves with; its `score`
is `none` when the entry's score is NaN. -/
structure SearchResult where
  id : ℕ
  score : Option ℝ
  feedback_score : ℝ
  question : String
  answer : String
  audio_path : Option String
  group_name : String
  timestamp : Option ℝ

/-- Source `searchLocal` of part_007: score every cached vector with the hybrid
formula, sort by descending score, truncate and project.  The loaded cache is
passed as `vectors`; `none` for the query vector is the embedding failure
caught into `[]`. -/
noncomputable def searchLocal (query : String) (queryVector : Option (List ℝ))
    (vectors : List Vec) (limit : ℕ) : List SearchResult :=
  match queryVector with
  | none => []
  | some qv =>
    let results := vectors.map (fun v => (v, score query qv v))
    let sorted := results.mergeSort sortLe
    (sorted.take limit).map (fun p =>
      { id := p.1.id, score := p.2, feedback_score := p.1.relevance_score,
        question := p.1.question.getD "", answer := p.1.answer.getD "",
        audio_path := p.1.audio_path, group_name := p.1.group_name.getD "",
        timestamp := p.1.timestamp })

end Hybrid

namespace Feedback

/-! ## src/feedback_system.js -/

/-- The columns `updateMessageRelevance` reads (either may be NULL). -/
structure MsgRow where
  relevance_score : Option ℚ
  feedback_count : Option ℕ

/-- Source `updateMessageRelevance`: running average of the 0/1 feedback values.
`none` for the message row means the SELECT found nothing and no update is
performed; otherwise the new `(relevance_score, feedback_count)` pair written
back is returned.  JS `||` defaults a falsy count to 0 and a falsy (0 or
NULL) score to 0.5. -/
def updateMessageRelevance (msg : Option MsgRow) (isRelevant : Bool) : Option (ℚ × ℕ) :=
  match msg with
  | none => none
  | some m =>
    let oldCount := m.feedback_count.getD 0
    let newCount := oldCount + 1
    let currentScore : ℚ := match m.relevance_score with
      | some s => if s = 0 then 0.5 else s
      | none => 0.5
    let feedbackValue : ℚ := if isRelevant then 1 else 0
    let newScore := (currentScore * oldCount + feedbackValue) / newCount
    some (newScore, newCount)

/-- Running state after N consecutive `isRelevant = true` feedback events
applied from the column defaults (`relevance_score = 0.5`,
`feedback_count = 0`). -/
def runFeedback : ℕ → ℚ × ℕ
  | 0 => (1/2, 0)
  | n + 1 =>
    let prev := runFeedback n
    match updateMessageRelevance (some { relevance_score := some prev.1,
                                         feedback_count := some prev.2 }) true with
    | some next => next
    | none => prev

end Feedback

/-! ## Concrete fixtures used by witnesses and counterexamples -/

/-- A non-reply answer "abc" sent at t = 1000. -/
noncomputable def c1Inp : EnhancedMatcher.MatchInput :=
  { groupName := "g", audioWAId := "A1", answerText := "abc", answerSender := none,
    answerTsSec := 1000, repliedToMessageId := none, questionTextHint := none }

/-- A candidate question "abc" at the same timestamp, no cached embedding. -/
noncomputable def c1Cand : EnhancedMatcher.Candidate :=
  { id := 7, wa_message_id := "Q1", question_text := "abc", ts := 1000,
    sender_name := none, sender_jid := none, q_embed := none, a_embed := none }

/-- Providers: both embedding calls fail, the verifier call fails. -/
noncomputable def c1Orc : EnhancedMatcher.Oracles :=
  { answerEmbed := none, questionEmbed := fun _ => none, verifyResp := none }

/-- A non-reply answer "a" sent 48 hours after the fixture candidate. -/
noncomputable def c4Inp : EnhancedMatcher.MatchInput :=
  { groupName := "g", audioWAId := "A2", answerText := "a", answerSender := none,
    answerTsSec := 173800, repliedToMessageId := none, questionTextHint := none }

/-- A candidate question "q" at t = 1000 with a cached embedding. -/
noncomputable def c4Cand : EnhancedMatcher.Candidate :=
  { id := 8, wa_message_id := "Q2", question_text := "q", ts := 1000,
    sender_name := none, sender_jid := none, q_embed := some [1], a_embed := none }

/-- Providers: the answer embedding fails, so does everything downstream. -/
noncomputable def c4Orc : EnhancedMatcher.Oracles :=
  { answerEmbed := none, questionEmbed := fun _ => none, verifyResp := none }

/-- A non-reply answer "a" from sender S at t = 100000. -/
noncomputable def c8Inp : EnhancedMatcher.MatchInput :=
  { groupName := "g", audioWAId := "A3", answerText := "a", answerSender := some "S",
    answerTsSec := 100000, repliedToMessageId := none, questionTextHint := none }

/-- The more recent candidate: same timestamp as the answer, different
sender; its score is the bare language bonus 0.08. -/
noncomputable def c8CandA : EnhancedMatcher.Candidate :=
  { id := 1, wa_message_id := "QA", question_text := "q", ts := 100000,
    sender_name := none, sender_jid := none, q_embed := some [1], a_embed := none }

/-- The older candidate: 10 hours earlier but same sender as the answer, so
the author bonus (+0.15) exactly cancels the time decay (−0.15) and it ties
at 0.08. -/
noncomputable def c8CandB : EnhancedMatcher.Candidate :=
  { id := 2, wa_message_id := "QB", question_text := "q", ts := 64000,
    sender_name := some "S", sender_jid := none, q_embed := some [1], a_embed := none }

/-- Providers for the tie-break witness: no embeddings, no verifier. -/
noncomputable def c8Orc : EnhancedMatcher.Oracles :=
  { answerEmbed := none, questionEmbed := fun _ => none, verifyResp := none }

/-- A cached entry for the hybrid-ranking witness. -/
noncomputable def c2Vec : Hybrid.Vec :=
  { id := 1, vector := [1], question := some "chabbat interdit",
    answer := some "réponse", audio_path := none, timestamp := some 1000,
    group_name := some "g", relevance_score := 0.75 }

/-! ## Helper lemmas -/

/-- Pointwise products of a list with itself are its squares. -/
lemma zipWith_mul_self (v : List ℝ) :
    List.zipWith (fun x y => x * y) v v = v.map (fun x => x * x) := by
  induction v with
  | nil => rfl
  | cons a t ih => simp [ih]

/-- A sum of squares is nonnegative. -/
lemma sum_sq_nonneg (l : List ℝ) : 0 ≤ (l.map (fun x => x * x)).sum := by
  refine List.sum_nonneg ?_
  intro x hx
  obtain ⟨y, _, rfl⟩ := List.mem_map.1 hx
  exact mul_self_nonneg y

/-- The candidate score without a hint term, written without the
intermediate `let` bindings. -/
lemma candidateFinalScore_none_hint (answerText : String) (answerSender : Option String)
    (answerTsSec : ℤ) (aE qE : Option (List ℝ)) (c : EnhancedMatcher.Candidate) :
    EnhancedMatcher.candidateFinalScore answerText answerSender answerTsSec none aE qE c =
      EnhancedMatcher.SIM_WEIGHT *
        (match aE, qE with
          | some ae, some qe => EnhancedMatcher.cosineSimilarity ae qe
          | _, _ => 0) +
      0.3 * EnhancedMatcher.textSimilarity (jsTrimStr c.question_text) answerText +
      EnhancedMatcher.CONTEXT_WEIGHT *
        EnhancedMatcher.analyzeContext (jsTrimStr c.question_text) answerText
          (((answerTsSec - c.ts : ℤ) : ℝ) / 3600) +
      (if (truthyStr c.sender_name && truthyStr answerSender &&
            (c.sender_name.getD "" == answerSender.getD "")) = true
        then EnhancedMatcher.SAME_AUTHOR_BONUS else 0) +
      (if (EnhancedMatcher.detectLanguage (jsTrimStr c.question_text) ==
            EnhancedMatcher.detectLanguage answerText) = true
        then EnhancedMatcher.LANG_BONUS_MATCH else 0) -
      EnhancedMatcher.TIME_DECAY_PER_H * min 48 (((answerTsSec - c.ts : ℤ) : ℝ) / 3600) := rfl

/-- Jaccard text similarity of "abc" with itself is 1. -/
lemma textSimilarity_abc_abc : EnhancedMatcher.textSimilarity "abc" "abc" = 1 := by
  simp only [EnhancedMatcher.textSimilarity]
  rw [if_neg (by decide), if_pos (by decide)]
  rw [show (EnhancedMatcher.wordSet "abc" ∩ EnhancedMatcher.wordSet "abc").card = 1 from by decide]
  rw [show (EnhancedMatcher.wordSet "abc" ∪ EnhancedMatcher.wordSet "abc").card = 1 from by decide]
  norm_num

/-- The context score of the pair ("abc", "abc") with no time gap is 0. -/
lemma analyzeContext_abc_abc : EnhancedMatcher.analyzeContext "abc" "abc" 0 = 0 := by
  simp only [EnhancedMatcher.analyzeContext]
  rw [if_neg (by norm_num), if_neg (by decide)]
  rw [show (EnhancedMatcher.halakhicKeywords.filter
    (fun kw => containsSub (jsToLower "abc".toList) kw.toList &&
      containsSub (jsToLower "abc".toList) kw.toList)).length = 0 from by decide]
  rw [min_eq_right (by norm_num)]
  norm_num

/-- The algorithmic score of the C1 fixture candidate: text similarity 1 and
a language match, nothing else, giving 0.3 + 0.08 = 0.38. -/
lemma c1_score_eval :
    EnhancedMatcher.scanScore "abc" none 1000 none none (fun _ => none) c1Cand = 0.38 := by
  simp only [EnhancedMatcher.scanScore, EnhancedMatcher.effectiveQEmbed, c1Cand]
  rw [candidateFinalScore_none_hint]
  rw [show jsTrimStr "abc" = "abc" from by decide]
  rw [if_neg (by decide), if_pos (by decide)]
  rw [show (((1000 : ℤ) - 1000 : ℤ) : ℝ) = 0 from by norm_num]
  rw [zero_div, textSimilarity_abc_abc, analyzeContext_abc_abc]
  rw [min_eq_right (by norm_num)]
  norm_num [EnhancedMatcher.SIM_WEIGHT, EnhancedMatcher.CONTEXT_WEIGHT,
    EnhancedMatcher.LANG_BONUS_MATCH, EnhancedMatcher.TIME_DECAY_PER_H]

/-- The scoring phase of the C1 fixture run: one answer-embedding call, one
(failed) question-embedding call, best candidate `c1Cand` with score 0.38. -/
lemma c1_scan_eval :
    EnhancedMatcher.scanState c1Inp [c1Cand] c1Orc =
      { best := some c1Cand, bestScore := 0.38, calls := 2, writes := [] } := by
  have hq : c1Cand.q_embed = (none : Option (List ℝ)) := rfl
  simp only [EnhancedMatcher.scanState, c1Inp, c1Orc, EnhancedMatcher.scanCandidates,
    EnhancedMatcher.scanStep, hq]
  rw [if_neg (by decide)]
  rw [c1_score_eval]
  rw [if_pos (by norm_num)]

/-! ## C1 — verifier failure still blends -/

/-- Claim C1 (amended): when the external verifier call fails (provider
unreachable, API error, or unparseable output), `verifyWithAI` catches the
error and substitutes the neutral score 0.5, so the blend still happens:
the persisted confidence is `0.7 · algorithmic + 0.15`, not the unmodified
algorithmic score, and the decision is taken on that blended value (method
`low-score` below 0.55, `ai-enhanced` at or above).  The link operation
itself never fails: a result is always produced. -/
theorem c1_verifier_failure_blends (inp : EnhancedMatcher.MatchInput)
    (cands : List EnhancedMatcher.Candidate) (orc : EnhancedMatcher.Oracles)
    (hreply : truthyStr inp.repliedToMessageId = false)
    (hne : cands.length ≠ 0) (hfail : orc.verifyResp = none)
    (bc : EnhancedMatcher.Candidate)
    (hbest : (EnhancedMatcher.scanState inp cands orc).best = some bc)
    (hhigh : 0.3 < (EnhancedMatcher.scanState inp cands orc).bestScore) :
    (EnhancedMatcher.enhancedMatchAnswerToQuestion inp cands orc).confidence =
      0.7 * (EnhancedMatcher.scanState inp cands orc).bestScore + 0.15 ∧
    (EnhancedMatcher.enhancedMatchAnswerToQuestion inp cands orc).method =
      (if 0.7 * (EnhancedMatcher.scanState inp cands orc).bestScore + 0.15 < 0.55
        then "low-score" else "ai-enhanced") := by
  simp only [EnhancedMatcher.enhancedMatchAnswerToQuestion, hreply]
  rw [if_neg (by simp), if_neg hne, hbest]
  simp only [hfail, EnhancedMatcher.verifyWithAI, EnhancedMatcher.VERIFY_WITH_GPT,
    Bool.true_and]
  rw [if_pos (decide_eq_true hhigh)]
  simp only [Option.isSome_some, if_true]
  have h5 : (0.3 : ℝ) * (0.5 : ℝ) = 0.15 := by norm_num
  simp only [h5, EnhancedMatcher.THRESHOLD_ACCEPT]
  split_ifs with h
  · exact ⟨rfl, rfl⟩
  · exact ⟨rfl, rfl⟩

/-- Witness for C1 at the fixture: algorithmic best 0.38, verifier failure,
blended confidence 0.7·0.38 + 0.15. -/
theorem c1_verifier_failure_blends_witness :
    (EnhancedMatcher.enhancedMatchAnswerToQuestion c1Inp [c1Cand] c1Orc).confidence =
      0.7 * (EnhancedMatcher.scanState c1Inp [c1Cand] c1Orc).bestScore + 0.15 ∧
    (EnhancedMatcher.enhancedMatchAnswerToQuestion c1Inp [c1Cand] c1Orc).method =
      (if 0.7 * (EnhancedMatcher.scanState c1Inp [c1Cand] c1Orc).bestScore + 0.15 < 0.55
        then "low-score" else "ai-enhanced") :=
  c1_verifier_failure_blends c1Inp [c1Cand] c1Orc (by decide) (by decide) rfl c1Cand
    (by rw [c1_scan_eval]) (by rw [c1_scan_eval]; norm_num)

/-- Counterexample for C1 as stated: with the verifier failing, the
algorithmic score is 0.38 but the stored confidence is 0.7·0.38 + 0.15 =
0.416 — blending was not skipped. -/
theorem c1_counterexample :
    c1Orc.verifyResp = none ∧
    (EnhancedMatcher.scanState c1Inp [c1Cand] c1Orc).bestScore = 0.38 ∧
    (EnhancedMatcher.enhancedMatchAnswerToQuestion c1Inp [c1Cand] c1Orc).confidence = 0.416 ∧
    (0.416 : ℝ) ≠ 0.38 := by
  refine ⟨rfl, by rw [c1_scan_eval], ?_, by norm_num⟩
  have hv : c1Orc.verifyResp = (none : Option EnhancedMatcher.VerifyRaw) := rfl
  simp only [EnhancedMatcher.enhancedMatchAnswerToQuestion]
  rw [if_neg (by decide), if_neg (by decide), c1_scan_eval]
  simp only [hv, EnhancedMatcher.verifyWithAI, EnhancedMatcher.VERIFY_WITH_GPT, Bool.true_and]
  rw [decide_eq_true (show (0.3 : ℝ) < 0.38 from by norm_num)]
  rw [if_pos rfl]
  norm_num [EnhancedMatcher.THRESHOLD_ACCEPT]

/-! ## C4 — acceptance threshold decision -/

/-- Jaccard text similarity of the word-free strings "q" and "a" is 0. -/
lemma textSimilarity_q_a : EnhancedMatcher.textSimilarity "q" "a" = 0 := by
  simp only [EnhancedMatcher.textSimilarity]
  rw [if_neg (by decide), if_neg (by decide)]

/-- The context score of ("q", "a") at a 48-hour gap is the bare −0.1 gap
penalty. -/
lemma analyzeContext_q_a_48 : EnhancedMatcher.analyzeContext "q" "a" 48 = -0.1 := by
  simp only [EnhancedMatcher.analyzeContext]
  rw [if_pos (by norm_num), if_neg (by decide)]
  rw [show (EnhancedMatcher.halakhicKeywords.filter
    (fun kw => containsSub (jsToLower "q".toList) kw.toList &&
      containsSub (jsToLower "a".toList) kw.toList)).length = 0 from by decide]
  rw [show (0.1 : ℝ) * ((0 : ℕ) : ℝ) - 0.1 = -0.1 from by norm_num]
  rw [min_eq_right (by norm_num)]

/-- The algorithmic score of the C4 fixture candidate: only a language match
(+0.08) against the full context penalty and time decay, total −0.66. -/
lemma c4_score_eval :
    EnhancedMatcher.scanScore "a" none 173800 none none (fun _ => none) c4Cand = -0.66 := by
  simp only [EnhancedMatcher.scanScore, EnhancedMatcher.effectiveQEmbed, c4Cand]
  rw [candidateFinalScore_none_hint]
  rw [show jsTrimStr "q" = "q" from by decide]
  rw [if_neg (by decide), if_pos (by decide)]
  rw [show (((173800 : ℤ) - 1000 : ℤ) : ℝ) = 172800 from by norm_num]
  rw [show (172800 : ℝ) / 3600 = 48 from by norm_num]
  rw [textSimilarity_q_a, analyzeContext_q_a_48]
  rw [min_eq_right (by norm_num)]
  norm_num [EnhancedMatcher.SIM_WEIGHT, EnhancedMatcher.CONTEXT_WEIGHT,
    EnhancedMatcher.LANG_BONUS_MATCH, EnhancedMatcher.TIME_DECAY_PER_H]

/-- The scoring phase of the C4 fixture run records no best match: the only
candidate scores below 0. -/
lemma c4_scan_eval :
    EnhancedMatcher.scanState c4Inp [c4Cand] c4Orc =
      { best := none, bestScore := 0, calls := 1, writes := [] } := by
  have hq : c4Cand.q_embed = some [(1 : ℝ)] := rfl
  simp only [EnhancedMatcher.scanState, c4Inp, c4Orc, EnhancedMatcher.scanCandidates,
    EnhancedMatcher.scanStep, hq]
  rw [if_neg (by decide)]
  rw [c4_score_eval]
  rw [if_neg (by norm_num)]

/-- Claim C4 (amended): once the scoring loop has produced a best candidate,
the link decision is the 0.55 threshold on the (possibly blended) final
score: at or above, the link to the best candidate is persisted; below, the
linker persists `link_question_id = null` with method `low-score` and the
computed score itself.  (With a non-empty candidate pool but no positively
scoring candidate, the linker instead returns `no-valid-match` and persists
nothing — see the counterexample.) -/
theorem c4_threshold_decision (inp : EnhancedMatcher.MatchInput)
    (cands : List EnhancedMatcher.Candidate) (orc : EnhancedMatcher.Oracles)
    (hreply : truthyStr inp.repliedToMessageId = false)
    (hne : cands.length ≠ 0) (bc : EnhancedMatcher.Candidate)
    (hbest : (EnhancedMatcher.scanState inp cands orc).best = some bc) :
    (EnhancedMatcher.blendedScore inp cands orc < 0.55 →
      (EnhancedMatcher.enhancedMatchAnswerToQuestion inp cands orc).qid = none ∧
      (EnhancedMatcher.enhancedMatchAnswerToQuestion inp cands orc).method = "low-score" ∧
      (EnhancedMatcher.enhancedMatchAnswerToQuestion inp cands orc).confidence =
        EnhancedMatcher.blendedScore inp cands orc ∧
      (EnhancedMatcher.enhancedMatchAnswerToQuestion inp cands orc).writes =
        (EnhancedMatcher.scanState inp cands orc).writes ++
          [EnhancedMatcher.DbWrite.setLink inp.audioWAId none
            (EnhancedMatcher.blendedScore inp cands orc) "low-score"]) ∧
    (0.55 ≤ EnhancedMatcher.blendedScore inp cands orc →
      (EnhancedMatcher.enhancedMatchAnswerToQuestion inp cands orc).qid =
        some bc.wa_message_id ∧
      (EnhancedMatcher.enhancedMatchAnswerToQuestion inp cands orc).confidence =
        EnhancedMatcher.blendedScore inp cands orc ∧
      ∃ m, (EnhancedMatcher.enhancedMatchAnswerToQuestion inp cands orc).writes =
        (EnhancedMatcher.scanState inp cands orc).writes ++
          [EnhancedMatcher.DbWrite.setLink inp.audioWAId (some bc.wa_message_id)
            (EnhancedMatcher.blendedScore inp cands orc) m]) := by
  simp only [EnhancedMatcher.enhancedMatchAnswerToQuestion, hreply]
  rw [if_neg (by simp), if_neg hne, hbest]
  simp only [EnhancedMatcher.VERIFY_WITH_GPT, Bool.true_and]
  rw [show EnhancedMatcher.THRESHOLD_ACCEPT = 0.55 from rfl]
  by_cases hb : (0.3 : ℝ) < (EnhancedMatcher.scanState inp cands orc).bestScore
  · have hdec : decide (0.3 < (EnhancedMatcher.scanState inp cands orc).bestScore) = true :=
      decide_eq_true hb
    simp only [hdec, eq_self_iff_true, if_true, Option.isSome_some]
    have hfs : EnhancedMatcher.blendedScore inp cands orc =
        0.7 * (EnhancedMatcher.scanState inp cands orc).bestScore +
          0.3 * (EnhancedMatcher.verifyWithAI orc.verifyResp).score := by
      rw [EnhancedMatcher.blendedScore, if_pos hb]
    constructor
    · intro hlt
      rw [hfs] at hlt
      rw [if_pos hlt]
      refine ⟨rfl, rfl, hfs.symm, ?_⟩
      rw [hfs]
    · intro hge
      rw [hfs] at hge
      rw [if_neg (not_lt.2 hge)]
      refine ⟨rfl, hfs.symm, "ai-enhanced", ?_⟩
      rw [hfs]
  · have hdec : decide (0.3 < (EnhancedMatcher.scanState inp cands orc).bestScore) = false :=
      decide_eq_false hb
    simp only [hdec, Bool.false_eq_true, if_false, Option.isSome_none]
    have hfs : EnhancedMatcher.blendedScore inp cands orc =
        (EnhancedMatcher.scanState inp cands orc).bestScore := by
      rw [EnhancedMatcher.blendedScore, if_neg hb]
    constructor
    · intro hlt
      rw [hfs] at hlt
      rw [if_pos hlt]
      refine ⟨rfl, rfl, hfs.symm, ?_⟩
      rw [hfs]
    · intro hge
      rw [hfs] at hge
      rw [if_neg (not_lt.2 hge)]
      refine ⟨rfl, hfs.symm, "algorithm", ?_⟩
      rw [hfs]

/-- Witness for C4: the C1 fixture run blends to 0.416 < 0.55, so the
linker persists a null link with method `low-score` and the blended score. -/
theorem c4_threshold_decision_witness :
    (EnhancedMatcher.enhancedMatchAnswerToQuestion c1Inp [c1Cand] c1Orc).qid = none ∧
    (EnhancedMatcher.enhancedMatchAnswerToQuestion c1Inp [c1Cand] c1Orc).method =
      "low-score" ∧
    (EnhancedMatcher.enhancedMatchAnswerToQuestion c1Inp [c1Cand] c1Orc).confidence =
      EnhancedMatcher.blendedScore c1Inp [c1Cand] c1Orc := by
  have hblend : EnhancedMatcher.blendedScore c1Inp [c1Cand] c1Orc < 0.55 := by
    rw [EnhancedMatcher.blendedScore, c1_scan_eval]
    rw [if_pos (by norm_num)]
    rw [show c1Orc.verifyResp = (none : Option EnhancedMatcher.VerifyRaw) from rfl]
    simp only [EnhancedMatcher.verifyWithAI]
    norm_num
  have h := (c4_threshold_decision c1Inp [c1Cand] c1Orc (by decide) (by decide) c1Cand
    (by rw [c1_scan_eval])).1 hblend
  exact ⟨h.1, h.2.1, h.2.2.1⟩

/-- Counterexample for C4 as stated: a non-empty candidate pool whose only
candidate scores −0.66 yields method `no-valid-match` with no database write
at all — not the `low-score` persistence the claim requires below 0.55. -/
theorem c4_counterexample :
    ([c4Cand].length ≠ 0) ∧
    (EnhancedMatcher.enhancedMatchAnswerToQuestion c4Inp [c4Cand] c4Orc).method =
      "no-valid-match" ∧
    (EnhancedMatcher.enhancedMatchAnswerToQuestion c4Inp [c4Cand] c4Orc).writes = [] ∧
    (EnhancedMatcher.enhancedMatchAnswerToQuestion c4Inp [c4Cand] c4Orc).qid = none := by
  have hrun : EnhancedMatcher.enhancedMatchAnswerToQuestion c4Inp [c4Cand] c4Orc =
      { qid := none, confidence := 0, method := "no-valid-match",
        writes := [], providerCalls := 1 } := by
    simp only [EnhancedMatcher.enhancedMatchAnswerToQuestion]
    rw [if_neg (by decide), if_neg (by decide), c4_scan_eval]
  rw [hrun]
  exact ⟨by decide, rfl, rfl, rfl⟩

/-! ## C8 — deterministic tie-break by recency -/

section ScanLemmas

open EnhancedMatcher

variable (answerText : String) (answerSender : Option String) (answerTsSec : ℤ)
  (questionTextHint : Option String) (answerEmbedding : Option (List ℝ))
  (questionEmbed : String → Option (List ℝ))

/-- Case analysis of one loop iteration: either the accumulator's best match
and best score are unchanged (and an eligible candidate that left them
unchanged scores at most the current best), or the candidate is eligible,
strictly improves, and becomes the best with its own score. -/
lemma scanStep_spec (c : EnhancedMatcher.Candidate) (st : EnhancedMatcher.ScanState) :
    ((scanStep answerText answerSender answerTsSec questionTextHint
        answerEmbedding questionEmbed c st).best = st.best ∧
      (scanStep answerText answerSender answerTsSec questionTextHint
        answerEmbedding questionEmbed c st).bestScore = st.bestScore ∧
      (jsTrimStr c.question_text ≠ "" →
        scanScore answerText answerSender answerTsSec questionTextHint
          answerEmbedding questionEmbed c ≤ st.bestScore)) ∨
    (jsTrimStr c.question_text ≠ "" ∧
      st.bestScore < scanScore answerText answerSender answerTsSec questionTextHint
        answerEmbedding questionEmbed c ∧
      (scanStep answerText answerSender answerTsSec questionTextHint
        answerEmbedding questionEmbed c st).best = some c ∧
      (scanStep answerText answerSender answerTsSec questionTextHint
        answerEmbedding questionEmbed c st).bestScore =
        scanScore answerText answerSender answerTsSec questionTextHint
          answerEmbedding questionEmbed c) := by
  simp only [scanStep]
  by_cases hq : jsTrimStr c.question_text = ""
  · rw [if_pos hq]
    exact Or.inl ⟨rfl, rfl, fun h => absurd hq h⟩
  · rw [if_neg hq]
    by_cases hlt : st.bestScore < scanScore answerText answerSender answerTsSec
        questionTextHint answerEmbedding questionEmbed c
    · rw [if_pos hlt]
      exact Or.inr ⟨hq, hlt, rfl, rfl⟩
    · rw [if_neg hlt]
      exact Or.inl ⟨rfl, rfl, fun _ => not_lt.1 hlt⟩

/-- One iteration never decreases the best score. -/
lemma scanStep_mono (c : EnhancedMatcher.Candidate) (st : EnhancedMatcher.ScanState) :
    st.bestScore ≤ (scanStep answerText answerSender answerTsSec questionTextHint
      answerEmbedding questionEmbed c st).bestScore := by
  rcases scanStep_spec answerText answerSender answerTsSec questionTextHint
      answerEmbedding questionEmbed c st with ⟨-, hs, -⟩ | ⟨-, hlt, -, hs⟩
  · exact le_of_eq hs.symm
  · exact le_of_lt (hs ▸ hlt)

/-- The running best score of the candidate loop never decreases. -/
lemma scan_bestScore_mono : ∀ (l : List EnhancedMatcher.Candidate)
    (st : EnhancedMatcher.ScanState),
    st.bestScore ≤ (scanCandidates answerText answerSender answerTsSec questionTextHint
      answerEmbedding questionEmbed l st).bestScore := by
  intro l
  induction l with
  | nil => intro st; simp [scanCandidates]
  | cons c rest ih =>
    intro st
    simp only [scanCandidates]
    exact le_trans (scanStep_mono answerText answerSender answerTsSec questionTextHint
      answerEmbedding questionEmbed c st) (ih _)

/-- If the loop changed the best match, it strictly increased the best
score. -/
lemma scan_best_changed : ∀ (l : List EnhancedMatcher.Candidate)
    (st : EnhancedMatcher.ScanState),
    (scanCandidates answerText answerSender answerTsSec questionTextHint
      answerEmbedding questionEmbed l st).best ≠ st.best →
    st.bestScore < (scanCandidates answerText answerSender answerTsSec questionTextHint
      answerEmbedding questionEmbed l st).bestScore := by
  intro l
  induction l with
  | nil => intro st h; exact absurd rfl h
  | cons c rest ih =>
    intro st hne
    simp only [scanCandidates] at hne ⊢
    rcases scanStep_spec answerText answerSender answerTsSec questionTextHint
        answerEmbedding questionEmbed c st with ⟨hb, hs, -⟩ | ⟨-, hlt, -, hs⟩
    · have hne' : (scanCandidates answerText answerSender answerTsSec questionTextHint
          answerEmbedding questionEmbed rest
          (scanStep answerText answerSender answerTsSec questionTextHint
            answerEmbedding questionEmbed c st)).best ≠
          (scanStep answerText answerSender answerTsSec questionTextHint
            answerEmbedding questionEmbed c st).best := by
        rw [hb]; exact hne
      have := ih (scanStep answerText answerSender answerTsSec questionTextHint
        answerEmbedding questionEmbed c st) hne'
      rw [hs] at this
      exact this
    · calc st.bestScore
          < scanScore answerText answerSender answerTsSec questionTextHint
              answerEmbedding questionEmbed c := hlt
        _ = (scanStep answerText answerSender answerTsSec questionTextHint
              answerEmbedding questionEmbed c st).bestScore := hs.symm
        _ ≤ _ := scan_bestScore_mono answerText answerSender answerTsSec questionTextHint
              answerEmbedding questionEmbed rest _

/-- The loop either leaves the accumulator untouched or returns an eligible
candidate of the list together with its score. -/
lemma scan_best_spec : ∀ (l : List EnhancedMatcher.Candidate)
    (st : EnhancedMatcher.ScanState),
    ((scanCandidates answerText answerSender answerTsSec questionTextHint
        answerEmbedding questionEmbed l st).best = st.best ∧
      (scanCandidates answerText answerSender answerTsSec questionTextHint
        answerEmbedding questionEmbed l st).bestScore = st.bestScore) ∨
    (∃ c ∈ l, jsTrimStr c.question_text ≠ "" ∧
      (scanCandidates answerText answerSender answerTsSec questionTextHint
        answerEmbedding questionEmbed l st).best = some c ∧
      (scanCandidates answerText answerSender answerTsSec questionTextHint
        answerEmbedding questionEmbed l st).bestScore =
        scanScore answerText answerSender answerTsSec questionTextHint
          answerEmbedding questionEmbed c) := by
  intro l
  induction l with
  | nil => intro st; exact Or.inl ⟨rfl, rfl⟩
  | cons c rest ih =>
    intro st
    simp only [scanCandidates]
    rcases ih (scanStep answerText answerSender answerTsSec questionTextHint
        answerEmbedding questionEmbed c st) with ⟨hb, hs⟩ | ⟨c', hc', hel, hb, hs⟩
    · rcases scanStep_spec answerText answerSender answerTsSec questionTextHint
          answerEmbedding questionEmbed c st with ⟨hb', hs', -⟩ | ⟨hel, -, hb', hs'⟩
      · exact Or.inl ⟨hb.trans hb', hs.trans hs'⟩
      · exact Or.inr ⟨c, List.mem_cons_self c rest, hel, hb.trans hb', hs.trans hs'⟩
    · exact Or.inr ⟨c', List.mem_cons_of_mem c hc', hel, hb, hs⟩

/-- Every eligible candidate of the list scores at most the final best
score. -/
lemma scan_maximal : ∀ (l : List EnhancedMatcher.Candidate)
    (st : EnhancedMatcher.ScanState) (c' : EnhancedMatcher.Candidate),
    c' ∈ l → jsTrimStr c'.question_text ≠ "" →
    scanScore answerText answerSender answerTsSec questionTextHint
      answerEmbedding questionEmbed c' ≤
    (scanCandidates answerText answerSender answerTsSec questionTextHint
      answerEmbedding questionEmbed l st).bestScore := by
  intro l
  induction l with
  | nil => intro st c' hmem; exact absurd hmem (List.not_mem_nil c')
  | cons c rest ih =>
    intro st c' hmem hel
    simp only [scanCandidates]
    rcases List.mem_cons.1 hmem with rfl | hmem'
    · rcases scanStep_spec answerText answerSender answerTsSec questionTextHint
          answerEmbedding questionEmbed c' st with ⟨-, hs, hbound⟩ | ⟨-, -, -, hs⟩
      · calc scanScore answerText answerSender answerTsSec questionTextHint
              answerEmbedding questionEmbed c' ≤ st.bestScore := hbound hel
          _ = (scanStep answerText answerSender answerTsSec questionTextHint
                answerEmbedding questionEmbed c' st).bestScore := hs.symm
          _ ≤ _ := scan_bestScore_mono answerText answerSender answerTsSec questionTextHint
                answerEmbedding questionEmbed rest _
      · calc scanScore answerText answerSender answerTsSec questionTextHint
              answerEmbedding questionEmbed c'
            = (scanStep answerText answerSender answerTsSec questionTextHint
                answerEmbedding questionEmbed c' st).bestScore := hs.symm
          _ ≤ _ := scan_bestScore_mono answerText answerSender answerTsSec questionTextHint
                answerEmbedding questionEmbed rest _
    · exact ih _ c' hmem' hel

/-- On a list sorted by decreasing timestamp, the loop's strict-improvement
rule breaks score ties by recency: any eligible candidate attaining the
final best score has a timestamp at most that of the selected best match. -/
lemma scan_recency : ∀ (l : List EnhancedMatcher.Candidate)
    (st : EnhancedMatcher.ScanState),
    l.Pairwise (fun a b => b.ts ≤ a.ts) →
    (∀ b, st.best = some b → ∀ x ∈ l, x.ts ≤ b.ts) →
    ∀ c, (scanCandidates answerText answerSender answerTsSec questionTextHint
        answerEmbedding questionEmbed l st).best = some c →
    ∀ c' ∈ l, jsTrimStr c'.question_text ≠ "" →
    scanScore answerText answerSender answerTsSec questionTextHint
      answerEmbedding questionEmbed c' =
      (scanCandidates answerText answerSender answerTsSec questionTextHint
        answerEmbedding questionEmbed l st).bestScore →
    c'.ts ≤ c.ts := by
  intro l
  induction l with
  | nil => intro st _ _ c _ c' hmem; exact absurd hmem (List.not_mem_nil c')
  | cons x rest ih =>
    intro st hsorted hst c hc c' hmem hel hscore
    have hhead : ∀ y ∈ rest, y.ts ≤ x.ts := (List.pairwise_cons.1 hsorted).1
    have hsorted' : rest.Pairwise (fun a b => b.ts ≤ a.ts) := (List.pairwise_cons.1 hsorted).2
    simp only [scanCandidates] at hc hscore
    have hst1 : ∀ b, (scanStep answerText answerSender answerTsSec questionTextHint
        answerEmbedding questionEmbed x st).best = some b → ∀ y ∈ rest, y.ts ≤ b.ts := by
      intro b hb y hy
      rcases scanStep_spec answerText answerSender answerTsSec questionTextHint
          answerEmbedding questionEmbed x st with ⟨hbe, -, -⟩ | ⟨-, -, hbx, -⟩
      · exact hst b (hbe ▸ hb) y (List.mem_cons_of_mem x hy)
      · rw [hbx] at hb
        cases hb
        exact hhead y hy
    rcases List.mem_cons.1 hmem with rfl | hmem'
    · by_cases hch : (scanCandidates answerText answerSender answerTsSec questionTextHint
          answerEmbedding questionEmbed rest
          (scanStep answerText answerSender answerTsSec questionTextHint
            answerEmbedding questionEmbed c' st)).best =
          (scanStep answerText answerSender answerTsSec questionTextHint
            answerEmbedding questionEmbed c' st).best
      · rcases scanStep_spec answerText answerSender answerTsSec questionTextHint
            answerEmbedding questionEmbed c' st with ⟨hbe, hsc, hbound⟩ | ⟨-, -, hbx, -⟩
        · rw [hch, hbe] at hc
          exact hst c hc c' (List.mem_cons_self c' rest)
        · rw [hch, hbx] at hc
          cases hc
          exact le_refl _
      · have hgt := scan_best_changed answerText answerSender answerTsSec questionTextHint
          answerEmbedding questionEmbed rest
          (scanStep answerText answerSender answerTsSec questionTextHint
            answerEmbedding questionEmbed c' st) hch
        rcases scanStep_spec answerText answerSender answerTsSec questionTextHint
            answerEmbedding questionEmbed c' st with ⟨-, hsc, hbound⟩ | ⟨-, -, -, hsc⟩
        · rw [hsc, ← hscore] at hgt
          exact absurd hgt (not_lt.2 (hbound hel))
        · rw [hsc, ← hscore] at hgt
          exact absurd hgt (lt_irrefl _)
    · exact ih _ hsorted' hst1 c hc c' hmem' hel hscore

end ScanLemmas

/-- Source `scanState` unfolded to the candidate fold from its initial state. -/
lemma scanState_eq (inp : EnhancedMatcher.MatchInput)
    (cands : List EnhancedMatcher.Candidate) (orc : EnhancedMatcher.Oracles) :
    EnhancedMatcher.scanState inp cands orc =
      EnhancedMatcher.scanCandidates inp.answerText inp.answerSender inp.answerTsSec
        inp.questionTextHint orc.answerEmbed orc.questionEmbed cands
        { best := none, bestScore := 0, calls := 1,
          writes := match orc.answerEmbed with
            | some e => [EnhancedMatcher.DbWrite.setAEmbed inp.audioWAId e]
            | none => [] } := rfl

/-- Claim C8: on a candidate list ordered most-recent-first (as the SQL
`ORDER BY ts DESC` delivers it), the selected best match is a maximal-score
candidate, and whenever several eligible candidates attain the maximal final
score, the selected one has the most recent timestamp among them. -/
theorem c8_tie_break_recency (inp : EnhancedMatcher.MatchInput)
    (cands : List EnhancedMatcher.Candidate) (orc : EnhancedMatcher.Oracles)
    (hsorted : cands.Pairwise (fun a b => b.ts ≤ a.ts))
    (bc : EnhancedMatcher.Candidate)
    (hbest : (EnhancedMatcher.scanState inp cands orc).best = some bc) :
    (bc ∈ cands ∧
      EnhancedMatcher.scanScore inp.answerText inp.answerSender inp.answerTsSec
        inp.questionTextHint orc.answerEmbed orc.questionEmbed bc =
        (EnhancedMatcher.scanState inp cands orc).bestScore) ∧
    ∀ c' ∈ cands, jsTrimStr c'.question_text ≠ "" →
      EnhancedMatcher.scanScore inp.answerText inp.answerSender inp.answerTsSec
        inp.questionTextHint orc.answerEmbed orc.questionEmbed c' ≤
        (EnhancedMatcher.scanState inp cands orc).bestScore ∧
      (EnhancedMatcher.scanScore inp.answerText inp.answerSender inp.answerTsSec
          inp.questionTextHint orc.answerEmbed orc.questionEmbed c' =
          (EnhancedMatcher.scanState inp cands orc).bestScore →
        c'.ts ≤ bc.ts) := by
  rw [scanState_eq] at hbest ⊢
  constructor
  · rcases scan_best_spec inp.answerText inp.answerSender inp.answerTsSec
        inp.questionTextHint orc.answerEmbed orc.questionEmbed cands _ with
      ⟨hb, -⟩ | ⟨c', hc', -, hb, hs⟩
    · rw [hb] at hbest
      exact absurd hbest (by simp)
    · have hcc : c' = bc := by
        have := hb.symm.trans hbest
        exact Option.some.inj this
      subst hcc
      exact ⟨hc', hs.symm⟩
  · intro c' hmem hel
    refine ⟨scan_maximal inp.answerText inp.answerSender inp.answerTsSec
      inp.questionTextHint orc.answerEmbed orc.questionEmbed cands _ c' hmem hel, ?_⟩
    intro heq
    exact scan_recency inp.answerText inp.answerSender inp.answerTsSec
      inp.questionTextHint orc.answerEmbed orc.questionEmbed cands _ hsorted
      (fun b hb => by simp at hb) bc hbest c' hmem hel heq

/-- The context score of ("q", "a") with no time gap is 0. -/
lemma analyzeContext_q_a_zero : EnhancedMatcher.analyzeContext "q" "a" 0 = 0 := by
  simp only [EnhancedMatcher.analyzeContext]
  rw [if_neg (by norm_num), if_neg (by decide)]
  rw [show (EnhancedMatcher.halakhicKeywords.filter
    (fun kw => containsSub (jsToLower "q".toList) kw.toList &&
      containsSub (jsToLower "a".toList) kw.toList)).length = 0 from by decide]
  rw [min_eq_right (by norm_num)]
  norm_num

/-- The context score of ("q", "a") at a 10-hour gap is 0. -/
lemma analyzeContext_q_a_ten : EnhancedMatcher.analyzeContext "q" "a" 10 = 0 := by
  simp only [EnhancedMatcher.analyzeContext]
  rw [if_neg (by norm_num), if_neg (by decide)]
  rw [show (EnhancedMatcher.halakhicKeywords.filter
    (fun kw => containsSub (jsToLower "q".toList) kw.toList &&
      containsSub (jsToLower "a".toList) kw.toList)).length = 0 from by decide]
  rw [min_eq_right (by norm_num)]
  norm_num

/-- The recent fixture candidate scores the bare language bonus 0.08. -/
lemma c8_scoreA :
    EnhancedMatcher.scanScore "a" (some "S") 100000 none none (fun _ => none) c8CandA
      = 0.08 := by
  simp only [EnhancedMatcher.scanScore, EnhancedMatcher.effectiveQEmbed, c8CandA]
  rw [candidateFinalScore_none_hint]
  rw [show jsTrimStr "q" = "q" from by decide]
  rw [if_neg (by decide), if_pos (by decide)]
  rw [show (((100000 : ℤ) - 100000 : ℤ) : ℝ) = 0 from by norm_num]
  rw [zero_div, textSimilarity_q_a, analyzeContext_q_a_zero]
  rw [min_eq_right (by norm_num)]
  norm_num [EnhancedMatcher.SIM_WEIGHT, EnhancedMatcher.CONTEXT_WEIGHT,
    EnhancedMatcher.LANG_BONUS_MATCH, EnhancedMatcher.TIME_DECAY_PER_H]

/-- The older fixture candidate ties at 0.08: the author bonus cancels the
time decay. -/
lemma c8_scoreB :
    EnhancedMatcher.scanScore "a" (some "S") 100000 none none (fun _ => none) c8CandB
      = 0.08 := by
  simp only [EnhancedMatcher.scanScore, EnhancedMatcher.effectiveQEmbed, c8CandB]
  rw [candidateFinalScore_none_hint]
  rw [show jsTrimStr "q" = "q" from by decide]
  rw [if_pos (by decide), if_pos (by decide)]
  rw [show (((100000 : ℤ) - 64000 : ℤ) : ℝ) = 36000 from by norm_num]
  rw [show (36000 : ℝ) / 3600 = 10 from by norm_num]
  rw [textSimilarity_q_a, analyzeContext_q_a_ten]
  rw [min_eq_right (by norm_num)]
  norm_num [EnhancedMatcher.SIM_WEIGHT, EnhancedMatcher.CONTEXT_WEIGHT,
    EnhancedMatcher.LANG_BONUS_MATCH, EnhancedMatcher.TIME_DECAY_PER_H,
    EnhancedMatcher.SAME_AUTHOR_BONUS]

/-- Stepping the loop over the recent candidate records it at 0.08. -/
lemma c8_stepA :
    EnhancedMatcher.scanStep "a" (some "S") 100000 none none (fun _ => none) c8CandA
      { best := none, bestScore := 0, calls := 1, writes := [] } =
    { best := some c8CandA, bestScore := 0.08, calls := 1, writes := [] } := by
  have hqa : c8CandA.q_embed = some [(1 : ℝ)] := rfl
  simp only [EnhancedMatcher.scanStep, hqa]
  rw [if_neg (by decide), c8_scoreA, if_pos (by norm_num)]

/-- Stepping the loop over the tying older candidate leaves the best match
unchanged (0.08 is not strictly greater than 0.08). -/
lemma c8_stepB :
    EnhancedMatcher.scanStep "a" (some "S") 100000 none none (fun _ => none) c8CandB
      { best := some c8CandA, bestScore := 0.08, calls := 1, writes := [] } =
    { best := some c8CandA, bestScore := 0.08, calls := 1, writes := [] } := by
  have hqb : c8CandB.q_embed = some [(1 : ℝ)] := rfl
  simp only [EnhancedMatcher.scanStep, hqb]
  rw [if_neg (by decide), c8_scoreB, if_neg (by norm_num)]

/-- The scoring phase of the C8 fixture run keeps the more recent of the two
equally scored candidates. -/
lemma c8_scan_eval :
    EnhancedMatcher.scanState c8Inp [c8CandA, c8CandB] c8Orc =
      { best := some c8CandA, bestScore := 0.08, calls := 1, writes := [] } := by
  show EnhancedMatcher.scanCandidates "a" (some "S") 100000 none none (fun _ => none)
    [c8CandA, c8CandB] { best := none, bestScore := 0, calls := 1, writes := [] } = _
  simp only [EnhancedMatcher.scanCandidates]
  rw [c8_stepA, c8_stepB]

/-- Witness for C8: two candidates tie at 0.08 and the more recent one
(timestamp 100000 over 64000) is selected. -/
theorem c8_tie_break_recency_witness :
    c8CandB.ts ≤ c8CandA.ts ∧
    EnhancedMatcher.scanScore c8Inp.answerText c8Inp.answerSender c8Inp.answerTsSec
      c8Inp.questionTextHint c8Orc.answerEmbed c8Orc.questionEmbed c8CandB =
      (EnhancedMatcher.scanState c8Inp [c8CandA, c8CandB] c8Orc).bestScore := by
  have hscore : EnhancedMatcher.scanScore c8Inp.answerText c8Inp.answerSender
      c8Inp.answerTsSec c8Inp.questionTextHint c8Orc.answerEmbed c8Orc.questionEmbed
      c8CandB = (EnhancedMatcher.scanState c8Inp [c8CandA, c8CandB] c8Orc).bestScore := by
    rw [c8_scan_eval]
    exact c8_scoreB
  have hsorted : ([c8CandA, c8CandB] : List EnhancedMatcher.Candidate).Pairwise
      (fun a b => b.ts ≤ a.ts) := by
    refine List.Pairwise.cons ?_ (List.pairwise_singleton _ _)
    intro b hb
    rcases List.mem_singleton.1 hb with rfl
    decide
  have h := (c8_tie_break_recency c8Inp [c8CandA, c8CandB] c8Orc hsorted c8CandA
    (by rw [c8_scan_eval])).2 c8CandB (by simp) (by decide)
  exact ⟨h.2 hscore, hscore⟩

/-! ## C3 — cosine similarity: self-similarity and zero-norm behaviour -/

/-- Claim C3 (amended): the guarded cosine of enhanced_matcher.js satisfies
both halves of the claim — `cosine(v, v) = 1` for every vector of non-zero
norm, and 0 whenever either norm is zero; the unguarded cosine of rag_api.js
satisfies `cosine(v, v) = 1` for non-zero `v`, but on a zero-norm input it
divides 0 by 0 and yields NaN (`none`), not 0. -/
theorem c3_cosine_self_and_zero :
    (∀ v : List ℝ, (v.map (fun x => x * x)).sum ≠ 0 →
      EnhancedMatcher.cosineSimilarity v v = 1) ∧
    (∀ a b : List ℝ,
      (a.map (fun x => x * x)).sum = 0 ∨ (b.map (fun x => x * x)).sum = 0 →
      EnhancedMatcher.cosineSimilarity a b = 0) ∧
    (∀ v : List ℝ, (v.map (fun x => x * x)).sum ≠ 0 →
      RagApi.cosineSimilarity v v = some 1) ∧
    (∀ a b : List ℝ, (a.map (fun x => x * x)).sum = 0 →
      RagApi.cosineSimilarity a b = none) := by
  refine ⟨?_, ?_, ?_, ?_⟩
  · intro v hv
    simp only [EnhancedMatcher.cosineSimilarity]
    rw [if_neg (by simp), zipWith_mul_self, if_neg (by tauto)]
    rw [Real.mul_self_sqrt (sum_sq_nonneg v)]
    exact div_self hv
  · intro a b h
    simp only [EnhancedMatcher.cosineSimilarity]
    by_cases hlen : a.length ≠ b.length
    · rw [if_pos hlen]
    · rw [if_neg hlen, if_pos h]
  · intro v hv
    simp only [RagApi.cosineSimilarity]
    rw [if_neg (by simp), List.take_length, zipWith_mul_self, if_neg (by tauto)]
    rw [Real.mul_self_sqrt (sum_sq_nonneg v)]
    rw [div_self hv]
  · intro a b h
    simp only [RagApi.cosineSimilarity]
    by_cases hlen : b.length < a.length
    · rw [if_pos hlen]
    · rw [if_neg hlen, if_pos (Or.inl h)]

/-- Witness for C3 at the concrete vector `[3]`. -/
theorem c3_cosine_self_and_zero_witness :
    EnhancedMatcher.cosineSimilarity [3] [3] = 1 ∧
    RagApi.cosineSimilarity [3] [3] = some 1 :=
  ⟨c3_cosine_self_and_zero.1 [3] (by norm_num),
   c3_cosine_self_and_zero.2.2.1 [3] (by norm_num)⟩

/-- Counterexample for C3 as stated: on the zero-norm input `[0]`, the
rag_api.js cosine returns NaN (modelled `none`), not 0. -/
theorem c3_cosine_counterexample :
    RagApi.cosineSimilarity [0] [1] = none ∧ (none : Option ℝ) ≠ some 0 := by
  constructor
  · simp only [RagApi.cosineSimilarity]
    norm_num
  · simp

/-! ## C5 — reply hard-link -/

/-- Claim C5: an answer carrying a truthy reply-to reference is linked
immediately to that reference with confidence exactly 1.0 and method
`reply`, with the single link write and zero provider calls, regardless of
the candidate pool. -/
theorem c5_reply_hardlink (inp : EnhancedMatcher.MatchInput)
    (cands : List EnhancedMatcher.Candidate) (orc : EnhancedMatcher.Oracles)
    (rid : String) (h1 : inp.repliedToMessageId = some rid) (h2 : rid ≠ "") :
    EnhancedMatcher.enhancedMatchAnswerToQuestion inp cands orc =
      { qid := some rid, confidence := 1, method := "reply",
        writes := [EnhancedMatcher.DbWrite.setLink inp.audioWAId (some rid) 1 "reply"],
        providerCalls := 0 } := by
  simp only [EnhancedMatcher.enhancedMatchAnswerToQuestion, truthyStr, h1]
  rw [if_pos (by simp [h2])]
  norm_num [EnhancedMatcher.REPLY_HARDLINK]

/-- Witness for C5 at a concrete reply-carrying answer. -/
theorem c5_reply_hardlink_witness :
    EnhancedMatcher.enhancedMatchAnswerToQuestion
      { groupName := "g", audioWAId := "A1", answerText := "merci", answerSender := some "X",
        answerTsSec := 0, repliedToMessageId := some "Q1", questionTextHint := none }
      []
      { answerEmbed := none, questionEmbed := fun _ => none, verifyResp := none } =
    { qid := some "Q1", confidence := 1, method := "reply",
      writes := [EnhancedMatcher.DbWrite.setLink "A1" (some "Q1") 1 "reply"],
      providerCalls := 0 } :=
  c5_reply_hardlink _ _ _ "Q1" rfl (by decide)

/-! ## C6 — confidence quality sub-score -/

/-- Claim C6 (amended): the quality sub-score is the step function of answer
length with STRICT thresholds — length > 500 gives 1.0, > 200 gives 0.8,
> 100 gives 0.6, > 50 gives 0.4, else 0.2 — then +0.1 if audio evidence is
present, capped at 1.0. -/
theorem c6_quality_step (now : ℝ) (result : Guardrails.SearchResult) (query : String) :
    (Guardrails.calculateConfidence now result query).details.quality =
      (let base : ℝ :=
        if 500 < result.answer.length then 1.0
        else if 200 < result.answer.length then 0.8
        else if 100 < result.answer.length then 0.6
        else if 50 < result.answer.length then 0.4
        else 0.2
       if truthyStr result.audio_path then min (base + 0.1) 1.0 else base) := rfl

/-- Counterexample for C6 as stated: an answer of length exactly 500 (with no
audio) gets quality 0.8, not the 1.0 the "≥ 500" reading requires. -/
theorem c6_quality_counterexample :
    (Guardrails.calculateConfidence 0
      { id := 1, score := 0, feedback_score := 0, question := "",
        answer := String.mk (List.replicate 500 'a'),
        audio_path := none, group_name := "", timestamp := none } "q").details.quality = 0.8
    ∧ (0.8 : ℝ) ≠ 1.0 := by
  constructor
  · have hlen : (String.mk (List.replicate 500 'a')).length = 500 := by
      show (List.replicate 500 'a').length = 500
      exact List.length_replicate 500 'a'
    simp only [Guardrails.calculateConfidence, hlen, truthyStr]
    norm_num
  · norm_num

/-! ## C7 — feedback running average -/

/-- The invariant of the all-positive feedback run: the count tracks the
number of events and the score stays in [1/2, 1]. -/
lemma runFeedback_invariant (n : ℕ) :
    (Feedback.runFeedback n).2 = n ∧
    1/2 ≤ (Feedback.runFeedback n).1 ∧ (Feedback.runFeedback n).1 ≤ 1 := by
  induction n with
  | zero => refine ⟨rfl, by norm_num [Feedback.runFeedback], by norm_num [Feedback.runFeedback]⟩
  | succ n ih =>
    obtain ⟨hc, hlo, hhi⟩ := ih
    have hne : (Feedback.runFeedback n).1 ≠ 0 := by
      intro h0
      rw [h0] at hlo
      norm_num at hlo
    have hstep : Feedback.runFeedback (n + 1) =
        (((Feedback.runFeedback n).1 * (Feedback.runFeedback n).2 + 1) /
          ((Feedback.runFeedback n).2 + 1), (Feedback.runFeedback n).2 + 1) := by
      simp only [Feedback.runFeedback, Feedback.updateMessageRelevance, Option.getD]
      rw [if_neg hne]
      simp
    set s := (Feedback.runFeedback n).1 with hs
    have hpos : (0 : ℚ) < ((Feedback.runFeedback n).2 : ℚ) + 1 := by positivity
    refine ⟨?_, ?_, ?_⟩
    · rw [hstep]; simpa using hc
    · rw [hstep]
      rw [le_div_iff hpos]
      have hcast : (0:ℚ) ≤ ((Feedback.runFeedback n).2 : ℚ) := Nat.cast_nonneg _
      nlinarith
    · rw [hstep]
      rw [div_le_one hpos]
      have hcast : (0:ℚ) ≤ ((Feedback.runFeedback n).2 : ℚ) := Nat.cast_nonneg _
      nlinarith

/-- Claim C7 (amended): for every NON-ZERO stored score the relevance update
is the running average `new = (old·count + (isRelevant ? 1 : 0)) / (count+1)`
with the count incremented by one; when the stored score is exactly 0 (one
initial negative vote stores exactly 0), the JS `||` default substitutes 0.5
for `old`, so the update computes `new = (0.5·count + (isRelevant ? 1 : 0)) /
(count + 1)` instead of the claimed formula.  A run of N consecutive positive
feedback events from relevance 0.5 never reaches a stored 0 and is
monotonically non-decreasing, staying within [0, 1]. -/
theorem c7_feedback_average :
    (∀ (s : ℚ) (c : ℕ) (rel : Bool), s ≠ 0 →
      Feedback.updateMessageRelevance
        (some { relevance_score := some s, feedback_count := some c }) rel =
        some ((s * c + if rel then 1 else 0) / (c + 1), c + 1)) ∧
    (∀ (c : ℕ) (rel : Bool),
      Feedback.updateMessageRelevance
        (some { relevance_score := some 0, feedback_count := some c }) rel =
        some (((1/2 : ℚ) * c + if rel then 1 else 0) / (c + 1), c + 1)) ∧
    (∀ n, (Feedback.runFeedback n).2 = n) ∧
    (∀ n, (Feedback.runFeedback n).1 ≤ (Feedback.runFeedback (n + 1)).1) ∧
    (∀ n, 0 ≤ (Feedback.runFeedback n).1 ∧ (Feedback.runFeedback n).1 ≤ 1) := by
  refine ⟨?_, ?_, ?_, ?_, ?_⟩
  · intro s c rel hs
    simp only [Feedback.updateMessageRelevance, Option.getD]
    rw [if_neg hs]
    norm_cast
  · intro c rel
    cases rel <;>
      (simp only [Feedback.updateMessageRelevance, Option.getD]; push_cast; norm_num)
  · intro n; exact (runFeedback_invariant n).1
  · intro n
    obtain ⟨hc, hlo, hhi⟩ := runFeedback_invariant n
    have hne : (Feedback.runFeedback n).1 ≠ 0 := by
      intro h0; rw [h0] at hlo; norm_num at hlo
    have hstep : Feedback.runFeedback (n + 1) =
        (((Feedback.runFeedback n).1 * (Feedback.runFeedback n).2 + 1) /
          ((Feedback.runFeedback n).2 + 1), (Feedback.runFeedback n).2 + 1) := by
      simp only [Feedback.runFeedback, Feedback.updateMessageRelevance, Option.getD]
      rw [if_neg hne]
      simp
    rw [hstep]
    have hpos : (0 : ℚ) < ((Feedback.runFeedback n).2 : ℚ) + 1 := by positivity
    rw [le_div_iff hpos]
    nlinarith [Nat.cast_nonneg (α := ℚ) (Feedback.runFeedback n).2]
  · intro n
    obtain ⟨_, hlo, hhi⟩ := runFeedback_invariant n
    exact ⟨le_trans (by norm_num) hlo, hhi⟩

/-- Witness for C7: one positive feedback event from the defaults. -/
theorem c7_feedback_average_witness :
    Feedback.updateMessageRelevance
      (some { relevance_score := some (1/2), feedback_count := some 0 }) true =
      some (1, 1) := by
  rw [c7_feedback_average.1 (1/2) 0 true (by norm_num)]
  norm_num

/-- Counterexample for C7 as stated: with a stored relevance of exactly 0
and one prior event, the next positive vote is stored as
(0.5·1 + 1)/2 = 3/4, while the claimed formula gives (0·1 + 1)/2 = 1/2. -/
theorem c7_counterexample :
    Feedback.updateMessageRelevance
      (some { relevance_score := some 0, feedback_count := some 1 }) true =
      some (3/4, 2) ∧
    some ((3 : ℚ)/4, (2 : ℕ)) ≠ some (((0 : ℚ) * 1 + 1) / (1 + 1), (2 : ℕ)) := by
  constructor
  · simp only [Feedback.updateMessageRelevance, Option.getD]
    push_cast
    norm_num
  · intro h
    rw [Option.some.injEq, Prod.mk.injEq] at h
    norm_num at h

/-! ## C10 — the off-topic rejection branch is unreachable -/

/-- The two invalid-query reasons and the valid non-halakhic reason are never
the off-topic rejection message. -/
lemma filterQuery_reason_ne_offTopic (spamTest : String → Bool) (q : String) :
    (Guardrails.filterQuery spamTest q).reason ≠
      some Guardrails.REJECTION_MESSAGE.offTopic := by
  simp only [Guardrails.filterQuery]
  split_ifs <;> simp <;> decide

/-- A query that passes `filterQuery` can never satisfy the off-topic branch
condition of `shouldReject` (non-halakhic implies confidence exactly 0.5). -/
lemma filterQuery_not_offtopic_cond (spamTest : String → Bool) (q : String)
    (h : (Guardrails.filterQuery spamTest q).valid = true) :
    ¬((Guardrails.filterQuery spamTest q).isHalakhic = false ∧
      (Guardrails.filterQuery spamTest q).confidence < 0.5) := by
  simp only [Guardrails.filterQuery] at h ⊢
  split_ifs at h ⊢ with h1 h2 h3
  · simp
  · rintro ⟨-, hlt⟩
    norm_num at hlt

/-- The rejection decision for a filtered query is never the off-topic one. -/
lemma shouldReject_message_ne_offTopic (spamTest : String → Bool) (q : String)
    (results : List Guardrails.SearchResult)
    (h : (Guardrails.filterQuery spamTest q).valid = true) :
    (Guardrails.shouldReject results (Guardrails.filterQuery spamTest q)).message ≠
      some Guardrails.REJECTION_MESSAGE.offTopic := by
  cases results with
  | nil =>
    intro hc
    exact absurd (Option.some.inj hc) (by decide)
  | cons r rs =>
    simp only [Guardrails.shouldReject]
    rw [if_neg (filterQuery_not_offtopic_cond spamTest q h)]
    split_ifs
    · intro hc; exact absurd (Option.some.inj hc) (by decide)
    · intro hc; exact absurd (Option.some.inj hc) (by decide)
    · simp

/-- Claim C10: `filterQuery` gives every valid query confidence exactly 0.5
(non-halakhic) or 1.0 (halakhic), while the off-topic branch of
`shouldReject` needs confidence strictly below 0.5 — so `applyGuardrails`
never returns (or warns with) the off-topic rejection message, for any spam
predicate, clock, query and result list. -/
theorem c10_offtopic_unreachable :
    (∀ (spamTest : String → Bool) (q : String),
      (Guardrails.filterQuery spamTest q).valid = true →
      (Guardrails.filterQuery spamTest q).confidence = 0.5 ∨
        (Guardrails.filterQuery spamTest q).confidence = 1) ∧
    (∀ (spamTest : String → Bool) (now : ℝ) (q : String)
        (results : List Guardrails.SearchResult),
      (Guardrails.applyGuardrails spamTest now q results).message ≠
        some Guardrails.REJECTION_MESSAGE.offTopic ∧
      (Guardrails.applyGuardrails spamTest now q results).warning ≠
        some Guardrails.REJECTION_MESSAGE.offTopic) := by
  constructor
  · intro spamTest q h
    simp only [Guardrails.filterQuery] at h ⊢
    split_ifs at h ⊢ with h1 h2 h3
    · right
      show (1.0 : ℝ) = 1
      norm_num
    · left
      rfl
  · intro spamTest now q results
    simp only [Guardrails.applyGuardrails]
    by_cases hv : (Guardrails.filterQuery spamTest q).valid = false
    · rw [if_pos hv]
      exact ⟨filterQuery_reason_ne_offTopic spamTest q, by simp⟩
    · rw [if_neg hv]
      have hvt : (Guardrails.filterQuery spamTest q).valid = true := by
        simpa using hv
      by_cases hr : (Guardrails.shouldReject results (Guardrails.filterQuery spamTest q)).reject
          = true
      · rw [if_pos hr]
        exact ⟨shouldReject_message_ne_offTopic spamTest q results hvt, by simp⟩
      · rw [if_neg hr]
        refine ⟨by simp, ?_⟩
        by_cases hw : (Guardrails.shouldReject results (Guardrails.filterQuery spamTest q)).warn
            = true
        · simp only [hw, if_pos]
          exact shouldReject_message_ne_offTopic spamTest q results hvt
        · simp [hw]

/-- Witness for C10: the plain non-halakhic query "abcdef" (no spam hit) gets
confidence 0.5. -/
theorem c10_offtopic_unreachable_witness :
    (Guardrails.filterQuery (fun _ => false) "abcdef").confidence = 0.5 ∨
      (Guardrails.filterQuery (fun _ => false) "abcdef").confidence = 1 :=
  c10_offtopic_unreachable.1 (fun _ => false) "abcdef" (by decide)

/-! ## C2 — hybrid ranking order and score formula -/

/-- The hybrid sort comparator is transitive and total, so the merge sort
delivers a list pairwise ordered by non-increasing score key. -/
lemma hybrid_sorted_pairs (l : List (Hybrid.Vec × Option ℝ)) :
    (l.mergeSort Hybrid.sortLe).Pairwise
      (fun a b : Hybrid.Vec × Option ℝ => b.2.getD 0 ≤ a.2.getD 0) := by
  have htrans : ∀ a b c : Hybrid.Vec × Option ℝ,
      Hybrid.sortLe a b = true → Hybrid.sortLe b c = true → Hybrid.sortLe a c = true := by
    intro a b c hab hbc
    simp only [Hybrid.sortLe, decide_eq_true_eq] at hab hbc ⊢
    exact le_trans hbc hab
  have htotal : ∀ a b : Hybrid.Vec × Option ℝ,
      (Hybrid.sortLe a b || Hybrid.sortLe b a) = true := by
    intro a b
    simp only [Hybrid.sortLe, Bool.or_eq_true, decide_eq_true_eq]
    exact le_total _ _
  have h := @List.sorted_mergeSort (Hybrid.Vec × Option ℝ) Hybrid.sortLe htrans htotal l
  refine h.imp ?_
  intro a b hab
  simpa only [Hybrid.sortLe, decide_eq_true_eq] using hab

/-- The cosine of the witness vectors is well defined and equals 1. -/
lemma c2_cos_eval : RagApi.cosineSimilarity [1] [(1 : ℝ)] = some 1 := by
  simp only [RagApi.cosineSimilarity]
  norm_num [Real.sqrt_one]

/-- Claim C2 (amended): whenever every cached vector yields a well-defined
(non-NaN) cosine against the query vector — no zero norms, no length
mismatch — and the relevance scores respect their [0, 1] invariant, the
hybrid `searchLocal` returns results ordered by non-increasing score, and
every returned score is `cosine · (1 + feedbackBoost) + keywordBonus` for
its source candidate, with `feedbackBoost = (relevance − 0.5) · 0.4` confined
to [−0.2, +0.2].  On a zero-norm input the cosine is NaN and the entry's
score is NaN, not a value of the formula — see the counterexample. -/
theorem c2_hybrid_ranking (query : String) (qv : List ℝ) (vectors : List Hybrid.Vec)
    (limit : ℕ)
    (hrel : ∀ v ∈ vectors, 0 ≤ v.relevance_score ∧ v.relevance_score ≤ 1)
    (hdef : ∀ v ∈ vectors, RagApi.cosineSimilarity qv v.vector ≠ none) :
    (Hybrid.searchLocal query (some qv) vectors limit).Pairwise
      (fun a b : Hybrid.SearchResult =>
        ∀ x y : ℝ, a.score = some x → b.score = some y → y ≤ x) ∧
    ∀ r ∈ Hybrid.searchLocal query (some qv) vectors limit, ∃ v ∈ vectors, ∃ c : ℝ,
      RagApi.cosineSimilarity qv v.vector = some c ∧
      r.score = some (c * (1 + Hybrid.feedbackBoost v) + Hybrid.keywordBonus query v) ∧
      -0.2 ≤ Hybrid.feedbackBoost v ∧ Hybrid.feedbackBoost v ≤ 0.2 := by
  constructor
  · simp only [Hybrid.searchLocal]
    rw [List.pairwise_map]
    refine ((hybrid_sorted_pairs _).sublist (List.take_sublist _ _)).imp ?_
    intro p q hpq x y hx hy
    have hx' : p.2 = some x := hx
    have hy' : q.2 = some y := hy
    rw [hx', hy'] at hpq
    simpa using hpq
  · intro r hr
    simp only [Hybrid.searchLocal, List.mem_map] at hr
    obtain ⟨p, hp, rfl⟩ := hr
    have hp' : p ∈ (vectors.map (fun v => (v, Hybrid.score query qv v))).mergeSort
        Hybrid.sortLe :=
      (List.take_sublist _ _).subset hp
    rw [List.mem_mergeSort] at hp'
    obtain ⟨v, hv, rfl⟩ := List.mem_map.1 hp'
    obtain ⟨c, hc⟩ : ∃ c, RagApi.cosineSimilarity qv v.vector = some c := by
      cases hcos : RagApi.cosineSimilarity qv v.vector with
      | none => exact absurd hcos (hdef v hv)
      | some c => exact ⟨c, rfl⟩
    refine ⟨v, hv, c, hc, ?_, ?_, ?_⟩
    · show Hybrid.score query qv v = some _
      simp only [Hybrid.score, hc, Option.map_some']
    · rw [Hybrid.feedbackBoost]
      by_cases h0 : v.relevance_score = 0
      · rw [if_pos h0]; norm_num
      · rw [if_neg h0]
        have := (hrel v hv).1
        nlinarith [(hrel v hv).2]
    · rw [Hybrid.feedbackBoost]
      by_cases h0 : v.relevance_score = 0
      · rw [if_pos h0]; norm_num
      · rw [if_neg h0]
        have := (hrel v hv).2
        nlinarith [(hrel v hv).1]

/-- Witness for C2 on a one-entry cache with relevance 0.75 and a
well-defined cosine. -/
theorem c2_hybrid_ranking_witness :
    (Hybrid.searchLocal "chabbat" (some [1]) [c2Vec] 5).Pairwise
      (fun a b : Hybrid.SearchResult =>
        ∀ x y : ℝ, a.score = some x → b.score = some y → y ≤ x) ∧
    ∀ r ∈ Hybrid.searchLocal "chabbat" (some [1]) [c2Vec] 5, ∃ v ∈ [c2Vec], ∃ c : ℝ,
      RagApi.cosineSimilarity [1] v.vector = some c ∧
      r.score = some (c * (1 + Hybrid.feedbackBoost v) + Hybrid.keywordBonus "chabbat" v) ∧
      -0.2 ≤ Hybrid.feedbackBoost v ∧ Hybrid.feedbackBoost v ≤ 0.2 :=
  c2_hybrid_ranking "chabbat" [1] [c2Vec] 5
    (by
      intro v hv
      rw [List.mem_singleton] at hv
      subst hv
      constructor <;> norm_num [c2Vec])
    (by
      intro v hv
      rw [List.mem_singleton] at hv
      subst hv
      rw [show c2Vec.vector = [(1 : ℝ)] from rfl, c2_cos_eval]
      simp)

/-- Counterexample for C2 as stated: against the zero-norm query vector [0],
the hybrid ranker's score for a cached entry is NaN (`none`), not any real
value of the claimed cosine formula. -/
theorem c2_counterexample :
    Hybrid.score "chabbat" [0] c2Vec = none ∧
    (none : Option ℝ) ≠
      some (0 * (1 + Hybrid.feedbackBoost c2Vec) + Hybrid.keywordBonus "chabbat" c2Vec) := by
  constructor
  · simp only [Hybrid.score]
    rw [show c2Vec.vector = [(1 : ℝ)] from rfl]
    rw [show RagApi.cosineSimilarity [0] [(1 : ℝ)] = none from by
      simp only [RagApi.cosineSimilarity]
      norm_num]
    rfl
  · simp

/-! ## C9 — empty vector store degrades to a no-results rejection -/

/-- An empty (or failed) store makes `searchLocal` return the empty list,
whatever the query vector and limit. -/
lemma searchLocal_empty_store (queryVector : Option (List ℝ))
    (store : Except Unit (List RagApi.Row)) (limit : ℕ)
    (h : RagApi.loadVectors store = []) :
    RagApi.searchLocal queryVector store limit = [] := by
  cases queryVector with
  | none => rfl
  | some qv => simp [RagApi.searchLocal, h]

/-- Claim C9: when the store read fails (the cache loader yields `[]` instead
of raising) or returns zero rows, a valid query flows through
`secureRAGSearch` to a `success = false` response with no results, and the
guardrails decision carries the no-results rejection reason; every failure
is caught, so a response is always produced. -/
theorem c9_empty_store_no_results (spamTest : String → Bool) (now : ℝ)
    (audioUrl : Option String → Option String) (query : String)
    (embedOracle : String → Option (List ℝ)) (store : Except Unit (List RagApi.Row))
    (limit : ℕ) (includeDetails : Bool)
    (hvalid : (Guardrails.filterQuery spamTest query).valid = true)
    (hempty : store = Except.error () ∨ store = Except.ok []) :
    (RagApi.secureRAGSearch spamTest now audioUrl query embedOracle store limit
        includeDetails).success = false ∧
    (RagApi.secureRAGSearch spamTest now audioUrl query embedOracle store limit
        includeDetails).results = [] ∧
    (Guardrails.applyGuardrails spamTest now query
        (RagApi.searchLocal (embedOracle (Guardrails.filterQuery spamTest query).cleaned)
          store (limit * 3))).message =
      some Guardrails.REJECTION_MESSAGE.noResults := by
  have hload : RagApi.loadVectors store = [] := by
    rcases hempty with h | h <;> simp [h, RagApi.loadVectors]
  have hraw : RagApi.searchLocal
      (embedOracle (Guardrails.filterQuery spamTest query).cleaned) store (limit * 3) = [] :=
    searchLocal_empty_store _ _ _ hload
  have hguard : Guardrails.applyGuardrails spamTest now query
      (RagApi.searchLocal (embedOracle (Guardrails.filterQuery spamTest query).cleaned)
        store (limit * 3)) =
      { success := false, results := [],
        message := some Guardrails.REJECTION_MESSAGE.noResults,
        warning := none, stats := none } := by
    rw [hraw]
    simp only [Guardrails.applyGuardrails]
    rw [if_neg (by simp [hvalid])]
    simp [Guardrails.shouldReject]
  refine ⟨?_, ?_, by rw [hguard]⟩
  · simp only [RagApi.secureRAGSearch]
    rw [if_neg (by simp [hvalid]), hguard]
  · simp only [RagApi.secureRAGSearch]
    rw [if_neg (by simp [hvalid]), hguard]
    simp

/-- Witness for C9: the query "abcdef" against a store that returned zero
rows. -/
theorem c9_empty_store_no_results_witness :
    (RagApi.secureRAGSearch (fun _ => false) 0 (fun _ => none) "abcdef" (fun _ => none)
        (Except.ok []) 5 true).success = false ∧
    (RagApi.secureRAGSearch (fun _ => false) 0 (fun _ => none) "abcdef" (fun _ => none)
        (Except.ok []) 5 true).results = [] ∧
    (Guardrails.applyGuardrails (fun _ => false) 0 "abcdef"
        (RagApi.searchLocal ((fun (_ : String) => (none : Option (List ℝ)))
          (Guardrails.filterQuery (fun _ => false) "abcdef").cleaned)
          (Except.ok []) (5 * 3))).message =
      some Guardrails.REJECTION_MESSAGE.noResults :=
  c9_empty_store_no_results (fun _ => false) 0 (fun _ => none) "abcdef" (fun _ => none)
    (Except.ok []) 5 true (by decide) (Or.inr rfl)
